import Mathlib

/-
  Verification of the infection-game simulation core.

  The numeric type of the JavaScript source is modelled by the real numbers;
  Math.hypot, Math.sqrt, Math.min, Math.max translate to their exact
  counterparts.  Calls to Date.now() and Math.random() are threaded through
  the operations as explicit parameters (a timestamp, a coin flip, an index
  pick, a random tuple per created ball).  The particle system is an external
  fire-and-forget collaborator and carries no simulation state, so it is not
  part of the model.
-/

noncomputable section

/-- Norm of a 2-vector, mirroring Math.hypot. -/
def hypot (x y : ℝ) : ℝ := Real.sqrt (x * x + y * y)

/-- A 2D point, from types.ts. -/
structure Point where
  x : ℝ
  y : ℝ

/-- Arena dimensions, from types.ts. -/
structure Dimensions where
  width : ℝ
  height : ℝ

/-- The ball color doubles as the health state in Ball.tsx:
green = Healthy, red = Infected, grey = Dead. -/
inductive Color where
| green
| red
| grey
deriving DecidableEq

/-- Collision query result, from types.ts. -/
structure CollisionInfo where
  collides : Bool
  normal : Point
  correctedX : ℝ
  correctedY : ℝ

/-- The state of one entity, mirroring the fields of class Ball. -/
structure Ball where
  x : ℝ
  y : ℝ
  vx : ℝ
  vy : ℝ
  radius : ℝ
  baseSpeed : ℝ
  color : Color
  pulsePhase : ℝ
  scale : ℝ
  targetScale : ℝ
  infectedTime : Option ℝ
  lastCollisionTime : Nat → Option ℝ

/-- The pre-update snapshot produced by Ball.saveState. -/
structure SavedState where
  x : ℝ
  y : ℝ
  vx : ℝ
  vy : ℝ

def Ball.COLLISION_COOLDOWN : ℝ := 100

def Ball.INFECTION_DURATION : ℝ := 5000

def Ball.isInfected (b : Ball) : Bool := decide (b.color = Color.red)

def Ball.isDead (b : Ball) : Bool := decide (b.color = Color.grey)

def Ball.getPosition (b : Ball) : Point := ⟨b.x, b.y⟩

/-- Ball.getRadius returns radius scaled by the current visual scale. -/
def Ball.getRadius (b : Ball) : ℝ := b.radius * b.scale

def Ball.saveState (b : Ball) : SavedState := ⟨b.x, b.y, b.vx, b.vy⟩

/-- Ball.infect: sets the infected color, records the infection time and grows
the target scale.  (The particle effect, emitted only when the ball was not
already infected, is external.) -/
def Ball.infect (b : Ball) (now : ℝ) : Ball :=
  { b with color := Color.red, infectedTime := some now, targetScale := 1.2 }

/-- Ball.cure: only acts if currently infected. -/
def Ball.cure (b : Ball) : Ball :=
  if b.isInfected then
    { b with color := Color.green, infectedTime := none, targetScale := 1 }
  else b

/-- Ball.die: unconditional death, zeroes the velocity. -/
def Ball.die (b : Ball) : Ball :=
  { b with color := Color.grey, vx := 0, vy := 0, targetScale := 0.8 }

/-- Ball.normalizeVelocity: rescale the velocity to baseSpeed, skipped for a
dead ball or a zero velocity. -/
def Ball.normalizeVelocity (b : Ball) : Ball :=
  if b.isDead then b
  else
    let currentSpeed := hypot b.vx b.vy
    if currentSpeed = 0 then b
    else { b with vx := b.vx / currentSpeed * b.baseSpeed,
                  vy := b.vy / currentSpeed * b.baseSpeed }

def Ball.updatePosition (b : Ball) (deltaTime : ℝ) : Ball :=
  { b with x := b.x + b.vx * deltaTime, y := b.y + b.vy * deltaTime }

/-- Ball.handleWallCollisions: per axis, reflect and clamp when the edge is
outside the arena; renormalize if any axis changed. -/
def Ball.handleWallCollisions (b : Ball) (dims : Dimensions) : Ball :=
  let hitX := b.x + b.radius > dims.width ∨ b.x - b.radius < 0
  let b1 := if hitX then
      { b with vx := -b.vx, x := max b.radius (min b.x (dims.width - b.radius)) }
    else b
  let hitY := b1.y + b1.radius > dims.height ∨ b1.y - b1.radius < 0
  let b2 := if hitY then
      { b1 with vy := -b1.vy, y := max b1.radius (min b1.y (dims.height - b1.radius)) }
    else b1
  if hitX ∨ hitY then b2.normalizeVelocity else b2

def Ball.isCollisionInCooldown (b : Ball) (lineIndex : Nat) (now : ℝ) : Bool :=
  match b.lastCollisionTime lineIndex with
  | none => false
  | some t => decide (now - t < Ball.COLLISION_COOLDOWN)

/-- Ball.handleCollisionCorrection: rolls back to the saved state when the
correction displacement exceeds twice the radius, otherwise snaps to the
corrected position; the Bool reports whether a rollback happened. -/
def Ball.handleCollisionCorrection (b : Ball) (collision : CollisionInfo)
    (orig : SavedState) : Ball × Bool :=
  let correctionDistance := hypot (collision.correctedX - b.x) (collision.correctedY - b.y)
  if correctionDistance > b.radius * 2 then
    ({ b with x := orig.x, y := orig.y, vx := orig.vx, vy := orig.vy }, true)
  else
    ({ b with x := collision.correctedX, y := collision.correctedY }, false)

/-- Ball.handleCollisionResponse: reflect the velocity about the collision
normal and renormalize. -/
def Ball.handleCollisionResponse (b : Ball) (collision : CollisionInfo) : Ball :=
  let dotProduct := b.vx * collision.normal.x + b.vy * collision.normal.y
  Ball.normalizeVelocity
    { b with vx := b.vx - 2 * dotProduct * collision.normal.x,
             vy := b.vy - 2 * dotProduct * collision.normal.y }

/-- Ball.updateVisualEffects: advance the pulse phase and ease the scale. -/
def Ball.updateVisualEffects (b : Ball) : Ball :=
  let b1 :=
    if b.isInfected then { b with pulsePhase := b.pulsePhase + 0.1 }
    else if !b.isDead then { b with pulsePhase := b.pulsePhase + 0.05 }
    else b
  { b1 with scale := b1.scale + (b1.targetScale - b1.scale) * 0.1 }

/-- Ball.checkInfectionStatus: once the infection duration has elapsed, a coin
flip decides death or cure (flip = true models Math.random() < 0.5). -/
def Ball.checkInfectionStatus (b : Ball) (now : ℝ) (flip : Bool) : Ball :=
  if b.isInfected ∧ now - (b.infectedTime.getD 0) ≥ Ball.INFECTION_DURATION then
    (if flip then b.die else b.cure)
  else b

/-- The state of one containment line, mirroring the fields of class
CurvyLine (the version with the disappearing lifecycle). -/
structure CurvyLine where
  points : List Point
  isComplete : Bool
  isDisappearing : Bool
  disappearProgress : ℝ

/-- The CurvyLine constructor: empty point list, not complete, not
disappearing. -/
def CurvyLine.mkLine : CurvyLine := ⟨[], false, false, 0⟩

def CurvyLine.MIN_POINT_DISTANCE : ℝ := 5

def CurvyLine.DISAPPEAR_DURATION : ℝ := 0.5

/-- CurvyLine.addPoint: append only when far enough from the last stored
point (an empty list always accepts). -/
def CurvyLine.addPoint (l : CurvyLine) (x y : ℝ) : CurvyLine :=
  match l.points.getLast? with
  | none => { l with points := l.points ++ [⟨x, y⟩] }
  | some lastPoint =>
    if hypot (x - lastPoint.x) (y - lastPoint.y) > CurvyLine.MIN_POINT_DISTANCE then
      { l with points := l.points ++ [⟨x, y⟩] }
    else l

def CurvyLine.complete (l : CurvyLine) : CurvyLine := { l with isComplete := true }

def CurvyLine.startDisappearing (l : CurvyLine) : CurvyLine :=
  { l with isDisappearing := true, disappearProgress := 0 }

/-- CurvyLine.update: accumulate elapsed disappear time, clamped at the
decay duration. -/
def CurvyLine.update (l : CurvyLine) (deltaTime : ℝ) : CurvyLine :=
  if l.isDisappearing then
    let p := l.disappearProgress + deltaTime
    if p ≥ CurvyLine.DISAPPEAR_DURATION then
      { l with disappearProgress := CurvyLine.DISAPPEAR_DURATION }
    else { l with disappearProgress := p }
  else l

def CurvyLine.isFullyDisappeared (l : CurvyLine) : Bool :=
  decide (l.disappearProgress ≥ CurvyLine.DISAPPEAR_DURATION)

/-- Consecutive point pairs of a polyline: the segments scanned by the
collision loops. -/
def segmentsOf (pts : List Point) : List (Point × Point) := pts.zip pts.tail

def segLength (s : Point × Point) : ℝ := hypot (s.2.x - s.1.x) (s.2.y - s.1.y)

def pointDist (p q : Point) : ℝ := hypot (p.x - q.x) (p.y - q.y)

/-- Closest point on the segment from a to b, by the clamped projection
parameter, exactly as computed inside the collision loops. -/
def closestPointOnSegment (p a b : Point) : Point :=
  let dx := b.x - a.x
  let dy := b.y - a.y
  let lineLength := hypot dx dy
  let dot := ((p.x - a.x) * dx + (p.y - a.y) * dy) / (lineLength * lineLength)
  if dot < 0 then a
  else if dot > 1 then b
  else ⟨a.x + dot * dx, a.y + dot * dy⟩

/-- One iteration of the segment scan in CurvyLine.getCollisionInfo: short
segments are skipped, otherwise the tracked minimum (distance, closest
point) is updated on a strictly smaller distance. -/
def scanStep (p : Point) (acc : Option (ℝ × Point)) (s : Point × Point) :
    Option (ℝ × Point) :=
  if segLength s < 1 then acc
  else
    let q := closestPointOnSegment p s.1 s.2
    let d := pointDist p q
    match acc with
    | none => some (d, q)
    | some md => if d < md.1 then some (d, q) else some md

/-- The full segment scan of CurvyLine.getCollisionInfo (minDist starts at
Infinity, modelled by the empty accumulator). -/
def scanSegments (p : Point) (segs : List (Point × Point)) : Option (ℝ × Point) :=
  segs.foldl (scanStep p) none

/-- CurvyLine.getCollisionInfo: the physical-response collision query used by
the entity physics. -/
def CurvyLine.getCollisionInfo (l : CurvyLine) (ball : Ball) : CollisionInfo :=
  let ballPos := ball.getPosition
  let ballRadius := ball.getRadius
  match scanSegments ballPos (segmentsOf l.points) with
  | none => ⟨false, ⟨0, 0⟩, 0, 0⟩
  | some md =>
    if md.1 ≥ ballRadius then ⟨false, ⟨0, 0⟩, 0, 0⟩
    else
      let dx := ballPos.x - md.2.x
      let dy := ballPos.y - md.2.y
      let dist := hypot dx dy
      if dist < 0.0001 then
        ⟨true, ⟨1, 0⟩, ballPos.x + ballRadius, ballPos.y⟩
      else
        ⟨true, ⟨dx / dist, dy / dist⟩,
          md.2.x + dx / dist * ballRadius, md.2.y + dy / dist * ballRadius⟩

/-- CurvyLine.collidesWithBall: boolean test, true when some valid segment's
distance to the ball center is below the ball's radius. -/
def CurvyLine.collidesWithBall (l : CurvyLine) (ball : Ball) : Bool :=
  (segmentsOf l.points).any fun s =>
    if segLength s < 1 then false
    else decide
      (pointDist ball.getPosition (closestPointOnSegment ball.getPosition s.1 s.2)
        < ball.getRadius)

/-- The body of the forEach loop in Ball.handleLineCollisions, for the line
at index i. -/
def Ball.processLine (b : Ball) (l : CurvyLine) (i : Nat) (orig : SavedState)
    (now : ℝ) : Ball :=
  if b.isCollisionInCooldown i now then b
  else
    let collision := l.getCollisionInfo b
    if collision.collides then
      let b1 := { b with lastCollisionTime :=
        fun j => if j = i then some now else b.lastCollisionTime j }
      let res := b1.handleCollisionCorrection collision orig
      if res.2 then res.1 else res.1.handleCollisionResponse collision
    else b

def Ball.handleLineCollisionsGo (b : Ball) (ls : List CurvyLine) (i : Nat)
    (orig : SavedState) (now : ℝ) : Ball :=
  match ls with
  | [] => b
  | l :: rest =>
    Ball.handleLineCollisionsGo (b.processLine l i orig now) rest (i + 1) orig now

/-- Ball.handleLineCollisions: process every active line in order, with its
array index as the cooldown key. -/
def Ball.handleLineCollisions (b : Ball) (ls : List CurvyLine)
    (orig : SavedState) (now : ℝ) : Ball :=
  Ball.handleLineCollisionsGo b ls 0 orig now

/-- Ball.update: the per-frame step, skipped entirely for a dead ball. -/
def Ball.update (b : Ball) (deltaTime : ℝ) (dims : Dimensions)
    (lines : List CurvyLine) (now : ℝ) (flip : Bool) : Ball :=
  if b.isDead then b
  else
    let orig := b.saveState
    ((((((b.updatePosition deltaTime).handleWallCollisions dims).handleLineCollisions
        lines orig now).updateVisualEffects).checkInfectionStatus now flip).normalizeVelocity)

/-- Ball.handleBallCollision: one-directional infection spread, then a
constant-speed separation response along the center-to-center normal. -/
def Ball.handleBallCollision (a b : Ball) (dx dy now : ℝ) : Ball × Ball :=
  let pair :=
    if a.isInfected && !b.isInfected then (a, b.infect now)
    else if !a.isInfected && b.isInfected then (a.infect now, b)
    else (a, b)
  let a1 := pair.1
  let b1 := pair.2
  let distance := hypot dx dy
  if distance = 0 then (a1, b1)
  else
    let nx := dx / distance
    let ny := dy / distance
    ({ a1 with vx := nx * a1.baseSpeed, vy := ny * a1.baseSpeed },
     { b1 with vx := -nx * b1.baseSpeed, vy := -ny * b1.baseSpeed })

/-- Ball.checkCollisionWith: no-op if either ball is dead; respond when the
centers are within the sum of the (construction-time) radii. -/
def Ball.checkCollisionWith (a b : Ball) (now : ℝ) : Ball × Ball :=
  if a.isDead || b.isDead then (a, b)
  else
    let dx := a.x - b.x
    let dy := a.y - b.y
    let distance := Real.sqrt (dx * dx + dy * dy)
    if distance < a.radius + b.radius then Ball.handleBallCollision a b dx dy now
    else (a, b)

/-- Game configuration, from types.ts. -/
structure GameSettings where
  ballCount : Nat
  ballRadius : ℝ
  infectionDuration : ℝ
  leaderboardSize : Nat
  speedScale : ℝ

/-- Result of GameInstance.checkGameOver, from types.ts. -/
structure GameOverState where
  isOver : Bool
  survivors : Nat

/-- The configuration record passed to the Ball constructor, from types.ts. -/
structure BallConfig where
  x : ℝ
  y : ℝ
  vx : ℝ
  vy : ℝ
  radius : ℝ
  speedScale : ℝ

/-- The Ball constructor: baseSpeed is the initial speed times the speed
scale, and the initial velocity is normalized to that base speed.  The random
initial pulse phase is passed explicitly. -/
def Ball.create (cfg : BallConfig) (phase : ℝ) : Ball :=
  let initialSpeed := hypot cfg.vx cfg.vy
  let baseSpeed := initialSpeed * cfg.speedScale
  { x := cfg.x, y := cfg.y,
    vx := cfg.vx / initialSpeed * baseSpeed,
    vy := cfg.vy / initialSpeed * baseSpeed,
    radius := cfg.radius, baseSpeed := baseSpeed,
    color := Color.green, pulsePhase := phase, scale := 1, targetScale := 1,
    infectedTime := none, lastCollisionTime := fun _ => none }

/-- The per-ball randomness drawn in GameInstance.initializeBalls: the two
position fractions, the direction fraction and the pulse-phase fraction. -/
structure BallSeed where
  rx : ℝ
  ry : ℝ
  rangle : ℝ
  rphase : ℝ

/-- One iteration of the creation loop in GameInstance.initializeBalls:
random position clamped into the arena minus radius, random direction of
unit length, then ball.cure() (a no-op on a healthy ball). -/
def initBall (dims : Dimensions) (settings : GameSettings) (seed : BallSeed) : Ball :=
  let x := seed.rx * (dims.width - 2 * settings.ballRadius) + settings.ballRadius
  let y := seed.ry * (dims.height - 2 * settings.ballRadius) + settings.ballRadius
  let angle := seed.rangle * (2 * Real.pi)
  (Ball.create ⟨x, y, Real.cos angle, Real.sin angle,
      settings.ballRadius, settings.speedScale⟩ (seed.rphase * (2 * Real.pi))).cure

def initializeBalls (dims : Dimensions) (settings : GameSettings)
    (seeds : Nat → BallSeed) : List Ball :=
  (List.range settings.ballCount).map fun i => initBall dims settings (seeds i)

/-- The state owned by a GameInstance (the canvas, particle system and draw
code are external). -/
structure GameInstance where
  balls : List Ball
  lines : List CurvyLine
  currentLine : Option CurvyLine
  isDrawing : Bool
  dimensions : Dimensions
  settings : GameSettings
  hasStartedInfection : Bool

/-- The GameInstance constructor. -/
def GameInstance.mkInstance (dims : Dimensions) (settings : GameSettings)
    (seeds : Nat → BallSeed) : GameInstance :=
  { balls := initializeBalls dims settings seeds, lines := [], currentLine := none,
    isDrawing := false, dimensions := dims, settings := settings,
    hasStartedInfection := false }

def GameInstance.reset (g : GameInstance) (seeds : Nat → BallSeed) : GameInstance :=
  { g with lines := [], currentLine := none, isDrawing := false,
           hasStartedInfection := false,
           balls := initializeBalls g.dimensions g.settings seeds }

def GameInstance.resize (g : GameInstance) (dims : Dimensions)
    (seeds : Nat → BallSeed) : GameInstance :=
  GameInstance.reset { g with dimensions := dims } seeds

/-- GameInstance.startInfection: guarded by the flag, infects the ball at a
random index (pick models Math.floor(Math.random() * length)). -/
def GameInstance.startInfection (g : GameInstance) (pick : Nat) (now : ℝ) :
    GameInstance :=
  if g.balls.length > 0 ∧ g.hasStartedInfection = false then
    let newBalls := g.balls.mapIdx
      fun i b => if i = pick % g.balls.length then b.infect now else b
    { g with balls := newBalls, hasStartedInfection := true }
  else g

/-- The inner loop of the pairwise collision pass: collide b against every
later ball, threading the mutations. -/
def collideOne (b : Ball) (rest : List Ball) (now : ℝ) : Ball × List Ball :=
  match rest with
  | [] => (b, [])
  | c :: cs =>
    let r := Ball.checkCollisionWith b c now
    let tail := collideOne r.1 cs now
    (tail.1, r.2 :: tail.2)

/-- Recursion core of the pairwise collision pass; the fuel equals the list
length at every call (collideOne preserves the length of its second
argument), so the zero-fuel branch is never taken on the lists it is run
on. -/
def collideAllGo (fuel : Nat) (balls : List Ball) (now : ℝ) : List Ball :=
  match fuel, balls with
  | 0, bs => bs
  | _ + 1, [] => []
  | n + 1, b :: bs =>
    let r := collideOne b bs now
    r.1 :: collideAllGo n r.2 now

/-- The pairwise collision pass of GameInstance.update (indices i < j). -/
def collideAll (balls : List Ball) (now : ℝ) : List Ball :=
  collideAllGo balls.length balls now

/-- The per-line body of the filter in GameInstance.update: a disappearing
line is advanced and dropped once fully disappeared, any other line is kept
untouched. -/
def GameInstance.lineStep (deltaTime : ℝ) (l : CurvyLine) : Option CurvyLine :=
  if l.isDisappearing then
    let l' := l.update deltaTime
    if l'.isFullyDisappeared then none else some l'
  else some l

/-- GameInstance.update: advance every ball (lines take part only when
active), run the pairwise collision pass, then filter the lines. -/
def GameInstance.update (g : GameInstance) (deltaTime : ℝ) (isActive : Bool)
    (now : ℝ) (flips : Nat → Bool) : GameInstance :=
  let balls1 := g.balls.mapIdx fun i b =>
    b.update deltaTime g.dimensions (if isActive then g.lines else []) now (flips i)
  let balls2 := collideAll balls1 now
  { g with balls := balls2, lines := g.lines.filterMap (GameInstance.lineStep deltaTime) }

def GameInstance.startLine (g : GameInstance) (x y : ℝ) : GameInstance :=
  { g with isDrawing := true, currentLine := some (CurvyLine.mkLine.addPoint x y) }

/-- GameInstance.updateLine: append a point to the in-progress line; on a
breach of a live ball the line starts disappearing and moves to the line set,
and drawing stops.  The Bool is the breached result. -/
def GameInstance.updateLine (g : GameInstance) (x y : ℝ) : GameInstance × Bool :=
  match g.isDrawing, g.currentLine with
  | true, some cl =>
    let cl' := cl.addPoint x y
    if g.balls.any (fun b => !b.isDead && cl'.collidesWithBall b) then
      ({ g with isDrawing := false, lines := g.lines ++ [cl'.startDisappearing],
                currentLine := none }, true)
    else ({ g with currentLine := some cl' }, false)
  | _, _ => (g, false)

def GameInstance.endLine (g : GameInstance) : GameInstance :=
  match g.isDrawing, g.currentLine with
  | true, some cl =>
    { g with lines := g.lines ++ [cl.complete], isDrawing := false, currentLine := none }
  | _, _ => g

/-- GameInstance.checkGameOver, translated verbatim from the source. -/
def GameInstance.checkGameOver (g : GameInstance) : GameOverState :=
  if g.hasStartedInfection = false then
    ⟨false, g.balls.length⟩
  else
    let hasInfectedBalls := g.balls.any fun b => b.isInfected
    let hasSomeDead := g.balls.any fun b => b.isDead
    let survivors := (g.balls.filter fun b => !b.isDead).length
    ⟨!hasInfectedBalls && (hasSomeDead || decide (survivors = g.balls.length)),
      survivors⟩

/-- Iterate the per-line filter body of GameInstance.update over a sequence
of frame deltas, tracking one line: none means the line has been removed
from the active set. -/
def runLineSteps (deltas : List ℝ) (l : CurvyLine) : Option CurvyLine :=
  match deltas with
  | [] => some l
  | d :: rest =>
    match GameInstance.lineStep d l with
    | none => none
    | some l' => runLineSteps rest l'

/-- The states a GameInstance can reach through its public operations,
each nondeterministic input (clock, coin flips, random index, random
placement seeds) quantified at the step that consumes it. -/
inductive Reachable : GameInstance → Prop where
| init : ∀ dims settings seeds, Reachable (GameInstance.mkInstance dims settings seeds)
| update : ∀ g deltaTime isActive now flips, Reachable g →
    Reachable (g.update deltaTime isActive now flips)
| startInfection : ∀ g pick now, Reachable g → Reachable (g.startInfection pick now)
| startLine : ∀ g x y, Reachable g → Reachable (g.startLine x y)
| updateLine : ∀ g x y, Reachable g → Reachable (g.updateLine x y).1
| endLine : ∀ g, Reachable g → Reachable g.endLine
| reset : ∀ g seeds, Reachable g → Reachable (g.reset seeds)
| resize : ∀ g dims seeds, Reachable g → Reachable (g.resize dims seeds)

/-- A healthy entity with a 3-4-5 velocity, used as a concrete test input. -/
def healthyB : Ball := ⟨100, 100, 3, 4, 20, 5, Color.green, 0, 1, 1, none, fun _ => none⟩

/-- An infected entity, used as a concrete test input. -/
def infectedB : Ball := ⟨200, 200, 3, 4, 20, 5, Color.red, 0, 1, 1.2, some 0, fun _ => none⟩

/-- A dead entity (zero velocity), used as a concrete test input. -/
def deadB : Ball := ⟨300, 300, 0, 0, 20, 5, Color.grey, 0, 1, 0.8, some 0, fun _ => none⟩

/-- A concrete settings record, used as a test input. -/
def settingsW : GameSettings := ⟨20, 20, 10000, 5, 1⟩

/-- A concrete arena, used as a test input. -/
def dimsW : Dimensions := ⟨1000, 1000⟩

/-- A concrete placement-randomness source, used as a test input. -/
def seedsW : Nat → BallSeed := fun _ => ⟨0, 0, 0, 0⟩

/-- A concrete pre-infection state (one healthy, one infected ball), used as
a test input. -/
def gC2 : GameInstance := ⟨[healthyB, infectedB], [], none, false, dimsW, settingsW, false⟩

/-- A concrete post-infection state with a single healthy ball: zero
infected and zero dead entities, used as a test input. -/
def gC3 : GameInstance := ⟨[healthyB], [], none, false, dimsW, settingsW, true⟩

/-- An entity at the origin whose visual scale (10) greatly enlarges its
effective collision radius, used as a concrete test input. -/
def ballC7 : Ball := ⟨0, 0, 3, 4, 10, 5, Color.green, 0, 10, 1, none, fun _ => none⟩

/-- A one-segment horizontal line to the right of the origin, used as a
concrete test input. -/
def lineC7 : CurvyLine := ⟨[⟨50, 0⟩, ⟨100, 0⟩], true, false, 0⟩

/-- A concrete saved pre-update state, used as a test input. -/
def origW : SavedState := ⟨1, 2, 3, 4⟩

/-- An entity at the origin with construction radius 10 and visual scale 2
(effective collision radius 20), used as a concrete test input. -/
def ballC6 : Ball := ⟨0, 0, 3, 4, 10, 5, Color.green, 0, 2, 1, none, fun _ => none⟩

/-- A one-segment line at distance 15 from the origin, used as a concrete
test input. -/
def lineC6 : CurvyLine := ⟨[⟨15, 0⟩, ⟨65, 0⟩], true, false, 0⟩

/-- An entity at the origin with radius 10 and scale 1, used as a concrete
test input for the epsilon-degenerate collision branch. -/
def ballC6e : Ball := ⟨0, 0, 3, 4, 10, 5, Color.green, 0, 1, 1, none, fun _ => none⟩

/-- A one-segment line whose closest point to the origin is within the
0.0001 degeneracy threshold, used as a concrete test input. -/
def lineC6e : CurvyLine := ⟨[⟨0.00005, 0⟩, ⟨50.00005, 0⟩], true, false, 0⟩

/-- An infected entity at the origin (baseSpeed 5, radius 3), used as a
concrete test input. -/
def ballC8a : Ball := ⟨0, 0, 1, 0, 3, 5, Color.red, 0, 1, 1.2, some 0, fun _ => none⟩

/-- A healthy entity at (3,4) (baseSpeed 10, radius 3), used as a concrete
test input. -/
def ballC8b : Ball := ⟨3, 4, 1, 0, 3, 10, Color.green, 0, 1, 1, none, fun _ => none⟩

/-- A completed, non-disappearing containment line, used as a concrete test
input. -/
def lineC9 : CurvyLine := ⟨[⟨0, 0⟩, ⟨10, 0⟩], true, false, 0⟩

/-- An in-progress drawn line with a single sample point, used as a concrete
test input. -/
def lineDrawC9 : CurvyLine := ⟨[⟨50, 100⟩], false, false, 0⟩

/-- A concrete drawing-in-progress state whose next sampled pointer position
touches the healthy ball, used as a test input. -/
def gC9 : GameInstance := ⟨[healthyB], [], some lineDrawC9, true, dimsW, settingsW, false⟩

/-- A concrete settings record for a one-ball game, used as a test input. -/
def settings1W : GameSettings := ⟨1, 20, 10000, 5, 1⟩

end

theorem hypot_nonneg (x y : ℝ) : 0 ≤ hypot x y := Real.sqrt_nonneg _

theorem hypot_sq (x y : ℝ) : hypot x y * hypot x y = x * x + y * y :=
  Real.mul_self_sqrt (add_nonneg (mul_self_nonneg x) (mul_self_nonneg y))

theorem hypot_eval {x y c : ℝ} (hc : 0 ≤ c) (h : x * x + y * y = c * c) :
    hypot x y = c := by
  unfold hypot
  rw [h]
  exact Real.sqrt_mul_self hc

theorem hypot_neg_left (x y : ℝ) : hypot (-x) y = hypot x y := by
  unfold hypot
  congr 1
  ring

theorem hypot_neg_right (x y : ℝ) : hypot x (-y) = hypot x y := by
  unfold hypot
  congr 1
  ring

@[simp] theorem isDead_eq_true_iff (b : Ball) : b.isDead = true ↔ b.color = Color.grey := by
  simp [Ball.isDead]

@[simp] theorem isDead_eq_false_iff (b : Ball) : b.isDead = false ↔ b.color ≠ Color.grey := by
  simp [Ball.isDead]

@[simp] theorem isInfected_eq_true_iff (b : Ball) : b.isInfected = true ↔ b.color = Color.red := by
  simp [Ball.isInfected]

@[simp] theorem isInfected_eq_false_iff (b : Ball) : b.isInfected = false ↔ b.color ≠ Color.red := by
  simp [Ball.isInfected]

theorem normalizeVelocity_speed (b : Ball) (h : hypot b.vx b.vy = b.baseSpeed) :
    hypot (b.normalizeVelocity).vx (b.normalizeVelocity).vy = b.baseSpeed := by
  unfold Ball.normalizeVelocity
  split
  · exact h
  · dsimp only
    split
    · exact h
    · rename_i hs
      have hB : 0 ≤ b.baseSpeed := h ▸ hypot_nonneg _ _
      have hBne : b.baseSpeed ≠ 0 := h ▸ hs
      apply hypot_eval hB
      have hsq := hypot_sq b.vx b.vy
      rw [h] at hsq ⊢
      field_simp
      linarith [hsq]

theorem normalizeVelocity_shape (b : Ball) :
    b.normalizeVelocity =
      { b with vx := (b.normalizeVelocity).vx, vy := (b.normalizeVelocity).vy } := by
  unfold Ball.normalizeVelocity
  split
  · rfl
  · dsimp only
    split
    · rfl
    · rfl

theorem handleWallCollisions_shape (b : Ball) (dims : Dimensions) :
    b.handleWallCollisions dims =
      { b with x := (b.handleWallCollisions dims).x, y := (b.handleWallCollisions dims).y,
               vx := (b.handleWallCollisions dims).vx, vy := (b.handleWallCollisions dims).vy } := by
  unfold Ball.handleWallCollisions
  dsimp only
  split <;> (try split) <;> (try split) <;>
    first
      | rfl
      | (rw [normalizeVelocity_shape]; try rfl)

theorem updateVisualEffects_shape (b : Ball) :
    b.updateVisualEffects =
      { b with pulsePhase := (b.updateVisualEffects).pulsePhase,
               scale := (b.updateVisualEffects).scale } := by
  unfold Ball.updateVisualEffects
  split
  · rfl
  · split
    · rfl
    · rfl

theorem checkInfectionStatus_cases (b : Ball) (now : ℝ) (flip : Bool) :
    b.checkInfectionStatus now flip = b ∨
    (b.checkInfectionStatus now flip = b.die ∧ b.isInfected = true) ∨
    (b.checkInfectionStatus now flip = b.cure ∧ b.isInfected = true) := by
  unfold Ball.checkInfectionStatus
  split
  · rename_i hcond
    cases flip
    · right; right; exact ⟨by simp, by simp [hcond.1]⟩
    · right; left; exact ⟨by simp, by simp [hcond.1]⟩
  · left; rfl

theorem cure_shape (b : Ball) :
    b.cure = b ∨ b.cure = { b with color := Color.green, infectedTime := none, targetScale := 1 } := by
  unfold Ball.cure
  split
  · right; rfl
  · left; rfl

theorem reflect_hypot (vx vy nx ny : ℝ) (hn : nx * nx + ny * ny = 1) :
    hypot (vx - 2 * (vx * nx + vy * ny) * nx) (vy - 2 * (vx * nx + vy * ny) * ny)
      = hypot vx vy := by
  unfold hypot
  congr 1
  linear_combination (4 * (vx * nx + vy * ny) ^ 2) * hn

theorem getCollisionInfo_scan_none (l : CurvyLine) (ball : Ball)
    (h : scanSegments ball.getPosition (segmentsOf l.points) = none) :
    l.getCollisionInfo ball = ⟨false, ⟨0, 0⟩, 0, 0⟩ := by
  unfold CurvyLine.getCollisionInfo
  simp only [h]

theorem getCollisionInfo_scan_far (l : CurvyLine) (ball : Ball) (md : ℝ × Point)
    (h : scanSegments ball.getPosition (segmentsOf l.points) = some md)
    (hge : md.1 ≥ ball.getRadius) :
    l.getCollisionInfo ball = ⟨false, ⟨0, 0⟩, 0, 0⟩ := by
  unfold CurvyLine.getCollisionInfo
  simp only [h]
  rw [if_pos hge]

theorem getCollisionInfo_scan_near_deg (l : CurvyLine) (ball : Ball) (md : ℝ × Point)
    (h : scanSegments ball.getPosition (segmentsOf l.points) = some md)
    (hlt : ¬ md.1 ≥ ball.getRadius)
    (hdeg : hypot (ball.getPosition.x - md.2.x) (ball.getPosition.y - md.2.y) < 0.0001) :
    l.getCollisionInfo ball =
      ⟨true, ⟨1, 0⟩, ball.getPosition.x + ball.getRadius, ball.getPosition.y⟩ := by
  unfold CurvyLine.getCollisionInfo
  simp only [h]
  rw [if_neg hlt, if_pos hdeg]

theorem getCollisionInfo_scan_near (l : CurvyLine) (ball : Ball) (md : ℝ × Point)
    (h : scanSegments ball.getPosition (segmentsOf l.points) = some md)
    (hlt : ¬ md.1 ≥ ball.getRadius)
    (hdeg : ¬ hypot (ball.getPosition.x - md.2.x) (ball.getPosition.y - md.2.y) < 0.0001) :
    l.getCollisionInfo ball =
      ⟨true,
        ⟨(ball.getPosition.x - md.2.x) / hypot (ball.getPosition.x - md.2.x) (ball.getPosition.y - md.2.y),
          (ball.getPosition.y - md.2.y) / hypot (ball.getPosition.x - md.2.x) (ball.getPosition.y - md.2.y)⟩,
        md.2.x + (ball.getPosition.x - md.2.x) /
            hypot (ball.getPosition.x - md.2.x) (ball.getPosition.y - md.2.y) * ball.getRadius,
        md.2.y + (ball.getPosition.y - md.2.y) /
            hypot (ball.getPosition.x - md.2.x) (ball.getPosition.y - md.2.y) * ball.getRadius⟩ := by
  unfold CurvyLine.getCollisionInfo
  simp only [h]
  rw [if_neg hlt, if_neg hdeg]

theorem getCollisionInfo_normal_unit (l : CurvyLine) (ball : Ball)
    (h : (l.getCollisionInfo ball).collides = true) :
    (l.getCollisionInfo ball).normal.x * (l.getCollisionInfo ball).normal.x +
      (l.getCollisionInfo ball).normal.y * (l.getCollisionInfo ball).normal.y = 1 := by
  rcases hscan : scanSegments ball.getPosition (segmentsOf l.points) with _ | md
  · rw [getCollisionInfo_scan_none l ball hscan] at h
    simp at h
  · by_cases hge : md.1 ≥ ball.getRadius
    · rw [getCollisionInfo_scan_far l ball md hscan hge] at h
      simp at h
    · by_cases hdeg :
        hypot (ball.getPosition.x - md.2.x) (ball.getPosition.y - md.2.y) < 0.0001
      · rw [getCollisionInfo_scan_near_deg l ball md hscan hge hdeg]
        norm_num
      · rw [getCollisionInfo_scan_near l ball md hscan hge hdeg]
        dsimp only
        have hpos : (0 : ℝ) <
            hypot (ball.getPosition.x - md.2.x) (ball.getPosition.y - md.2.y) := by
          push_neg at hdeg
          calc (0:ℝ) < 0.0001 := by norm_num
          _ ≤ _ := hdeg
        have hne := ne_of_gt hpos
        have hsq := hypot_sq (ball.getPosition.x - md.2.x) (ball.getPosition.y - md.2.y)
        field_simp
        linarith [hsq]


theorem normalizeVelocity_color (b : Ball) : (b.normalizeVelocity).color = b.color := by
  rw [normalizeVelocity_shape]

theorem normalizeVelocity_baseSpeed (b : Ball) :
    (b.normalizeVelocity).baseSpeed = b.baseSpeed := by
  rw [normalizeVelocity_shape]

theorem normalizeVelocity_x (b : Ball) : (b.normalizeVelocity).x = b.x := by
  rw [normalizeVelocity_shape]

theorem normalizeVelocity_y (b : Ball) : (b.normalizeVelocity).y = b.y := by
  rw [normalizeVelocity_shape]

theorem handleWallCollisions_color (b : Ball) (dims : Dimensions) :
    (b.handleWallCollisions dims).color = b.color := by
  rw [handleWallCollisions_shape]

theorem handleWallCollisions_baseSpeed (b : Ball) (dims : Dimensions) :
    (b.handleWallCollisions dims).baseSpeed = b.baseSpeed := by
  rw [handleWallCollisions_shape]

theorem handleWallCollisions_radius (b : Ball) (dims : Dimensions) :
    (b.handleWallCollisions dims).radius = b.radius := by
  rw [handleWallCollisions_shape]

theorem updateVisualEffects_color (b : Ball) : (b.updateVisualEffects).color = b.color := by
  rw [updateVisualEffects_shape]

theorem updateVisualEffects_baseSpeed (b : Ball) :
    (b.updateVisualEffects).baseSpeed = b.baseSpeed := by
  rw [updateVisualEffects_shape]

theorem updateVisualEffects_vx (b : Ball) : (b.updateVisualEffects).vx = b.vx := by
  rw [updateVisualEffects_shape]

theorem updateVisualEffects_vy (b : Ball) : (b.updateVisualEffects).vy = b.vy := by
  rw [updateVisualEffects_shape]

theorem updateVisualEffects_x (b : Ball) : (b.updateVisualEffects).x = b.x := by
  rw [updateVisualEffects_shape]

theorem updateVisualEffects_y (b : Ball) : (b.updateVisualEffects).y = b.y := by
  rw [updateVisualEffects_shape]

theorem handleWallCollisions_speed (b : Ball) (dims : Dimensions)
    (h : hypot b.vx b.vy = b.baseSpeed) :
    hypot (b.handleWallCollisions dims).vx (b.handleWallCollisions dims).vy
      = b.baseSpeed := by
  unfold Ball.handleWallCollisions
  dsimp only
  split <;> (try split) <;> (try split) <;>
    first
      | simpa [hypot_neg_left, hypot_neg_right] using h
      | (apply normalizeVelocity_speed
         simpa [hypot_neg_left, hypot_neg_right] using h)

theorem handleCollisionCorrection_rollback (b : Ball) (collision : CollisionInfo)
    (orig : SavedState)
    (h : hypot (collision.correctedX - b.x) (collision.correctedY - b.y) > b.radius * 2) :
    b.handleCollisionCorrection collision orig =
      ({ b with x := orig.x, y := orig.y, vx := orig.vx, vy := orig.vy }, true) := by
  unfold Ball.handleCollisionCorrection
  rw [if_pos h]

theorem handleCollisionCorrection_snap (b : Ball) (collision : CollisionInfo)
    (orig : SavedState)
    (h : ¬ hypot (collision.correctedX - b.x) (collision.correctedY - b.y) > b.radius * 2) :
    b.handleCollisionCorrection collision orig =
      ({ b with x := collision.correctedX, y := collision.correctedY }, false) := by
  unfold Ball.handleCollisionCorrection
  rw [if_neg h]

theorem processLine_cooldown (b : Ball) (l : CurvyLine) (i : Nat) (orig : SavedState)
    (now : ℝ) (h : b.isCollisionInCooldown i now = true) :
    b.processLine l i orig now = b := by
  unfold Ball.processLine
  rw [if_pos h]

theorem processLine_noCollision (b : Ball) (l : CurvyLine) (i : Nat) (orig : SavedState)
    (now : ℝ) (h : b.isCollisionInCooldown i now = false)
    (h2 : (l.getCollisionInfo b).collides = false) :
    b.processLine l i orig now = b := by
  unfold Ball.processLine
  rw [if_neg (by simp [h]), if_neg (by simp [h2])]

theorem processLine_rollback (b : Ball) (l : CurvyLine) (i : Nat) (orig : SavedState)
    (now : ℝ) (h : b.isCollisionInCooldown i now = false)
    (h2 : (l.getCollisionInfo b).collides = true)
    (hbig : hypot ((l.getCollisionInfo b).correctedX - b.x)
        ((l.getCollisionInfo b).correctedY - b.y) > b.radius * 2) :
    b.processLine l i orig now =
      { b with x := orig.x, y := orig.y, vx := orig.vx, vy := orig.vy,
               lastCollisionTime :=
                 fun j => if j = i then some now else b.lastCollisionTime j } := by
  unfold Ball.processLine
  rw [if_neg (by simp [h]), if_pos h2]
  dsimp only
  rw [handleCollisionCorrection_rollback
    { b with lastCollisionTime := fun j => if j = i then some now else b.lastCollisionTime j }
    (l.getCollisionInfo b) orig hbig]
  simp

theorem processLine_response (b : Ball) (l : CurvyLine) (i : Nat) (orig : SavedState)
    (now : ℝ) (h : b.isCollisionInCooldown i now = false)
    (h2 : (l.getCollisionInfo b).collides = true)
    (hsmall : ¬ hypot ((l.getCollisionInfo b).correctedX - b.x)
        ((l.getCollisionInfo b).correctedY - b.y) > b.radius * 2) :
    b.processLine l i orig now =
      Ball.handleCollisionResponse
        { b with x := (l.getCollisionInfo b).correctedX,
                 y := (l.getCollisionInfo b).correctedY,
                 lastCollisionTime :=
                   fun j => if j = i then some now else b.lastCollisionTime j }
        (l.getCollisionInfo b) := by
  unfold Ball.processLine
  rw [if_neg (by simp [h]), if_pos h2]
  dsimp only
  rw [handleCollisionCorrection_snap
    { b with lastCollisionTime := fun j => if j = i then some now else b.lastCollisionTime j }
    (l.getCollisionInfo b) orig hsmall]
  simp

theorem handleCollisionResponse_shape (b : Ball) (c : CollisionInfo) :
    b.handleCollisionResponse c =
      { b with vx := (b.handleCollisionResponse c).vx,
               vy := (b.handleCollisionResponse c).vy } := by
  unfold Ball.handleCollisionResponse
  rw [normalizeVelocity_shape]

theorem handleCollisionResponse_speed (b : Ball) (c : CollisionInfo)
    (hn : c.normal.x * c.normal.x + c.normal.y * c.normal.y = 1)
    (h : hypot b.vx b.vy = b.baseSpeed) :
    hypot (b.handleCollisionResponse c).vx (b.handleCollisionResponse c).vy
      = b.baseSpeed := by
  unfold Ball.handleCollisionResponse
  dsimp only
  apply normalizeVelocity_speed
  show hypot (b.vx - 2 * (b.vx * c.normal.x + b.vy * c.normal.y) * c.normal.x)
      (b.vy - 2 * (b.vx * c.normal.x + b.vy * c.normal.y) * c.normal.y) = b.baseSpeed
  rw [reflect_hypot b.vx b.vy c.normal.x c.normal.y hn]
  exact h

theorem processLine_invariants (b : Ball) (l : CurvyLine) (i : Nat) (orig : SavedState)
    (now : ℝ) (hB : hypot b.vx b.vy = b.baseSpeed)
    (horig : hypot orig.vx orig.vy = b.baseSpeed) :
    (b.processLine l i orig now).color = b.color ∧
    (b.processLine l i orig now).baseSpeed = b.baseSpeed ∧
    hypot (b.processLine l i orig now).vx (b.processLine l i orig now).vy
      = b.baseSpeed := by
  by_cases hcool : b.isCollisionInCooldown i now = true
  · rw [processLine_cooldown b l i orig now hcool]
    exact ⟨rfl, rfl, hB⟩
  · have hcool' : b.isCollisionInCooldown i now = false := by
      simpa using hcool
    by_cases hcol : (l.getCollisionInfo b).collides = true
    · by_cases hbig : hypot ((l.getCollisionInfo b).correctedX - b.x)
          ((l.getCollisionInfo b).correctedY - b.y) > b.radius * 2
      · rw [processLine_rollback b l i orig now hcool' hcol hbig]
        exact ⟨rfl, rfl, horig⟩
      · rw [processLine_response b l i orig now hcool' hcol hbig]
        have hn := getCollisionInfo_normal_unit l b hcol
        refine ⟨?_, ?_, ?_⟩
        · rw [handleCollisionResponse_shape]
        · rw [handleCollisionResponse_shape]
        · exact handleCollisionResponse_speed _ _ hn hB
    · have hcol' : (l.getCollisionInfo b).collides = false := by
        simpa using hcol
      rw [processLine_noCollision b l i orig now hcool' hcol']
      exact ⟨rfl, rfl, hB⟩

theorem handleLineCollisionsGo_invariants (orig : SavedState) (now : ℝ) :
    ∀ (ls : List CurvyLine) (b : Ball) (i : Nat),
      hypot b.vx b.vy = b.baseSpeed → hypot orig.vx orig.vy = b.baseSpeed →
      ((Ball.handleLineCollisionsGo b ls i orig now).color = b.color ∧
       (Ball.handleLineCollisionsGo b ls i orig now).baseSpeed = b.baseSpeed ∧
       hypot (Ball.handleLineCollisionsGo b ls i orig now).vx
         (Ball.handleLineCollisionsGo b ls i orig now).vy = b.baseSpeed) := by
  intro ls
  induction ls with
  | nil =>
    intro b i h1 _
    exact ⟨rfl, rfl, h1⟩
  | cons l rest ih =>
    intro b i h1 h2
    have hp := processLine_invariants b l i orig now h1 h2
    have hstep := ih (b.processLine l i orig now) (i + 1)
      (hp.2.2.trans hp.2.1.symm) (by rw [hp.2.1]; exact h2)
    simp only [Ball.handleLineCollisionsGo]
    exact ⟨hstep.1.trans hp.1, hstep.2.1.trans hp.2.1,
      hstep.2.2.trans hp.2.1⟩

theorem update_not_dead_eq (b : Ball) (deltaTime : ℝ) (dims : Dimensions)
    (lines : List CurvyLine) (now : ℝ) (flip : Bool) (hd : b.isDead = false) :
    b.update deltaTime dims lines now flip =
      (((((b.updatePosition deltaTime).handleWallCollisions dims).handleLineCollisions
          lines b.saveState now).updateVisualEffects).checkInfectionStatus now
          flip).normalizeVelocity := by
  unfold Ball.update
  rw [if_neg (by simp [hd])]

theorem update_dead_eq (b : Ball) (deltaTime : ℝ) (dims : Dimensions)
    (lines : List CurvyLine) (now : ℝ) (flip : Bool) (hd : b.isDead = true) :
    b.update deltaTime dims lines now flip = b := by
  unfold Ball.update
  rw [if_pos hd]

theorem checkInfectionStatus_speed_or_dead (b : Ball) (now : ℝ) (flip : Bool)
    (hB : hypot b.vx b.vy = b.baseSpeed) :
    ((b.checkInfectionStatus now flip).color = Color.grey) ∨
    (hypot (b.checkInfectionStatus now flip).vx (b.checkInfectionStatus now flip).vy
        = b.baseSpeed ∧
      (b.checkInfectionStatus now flip).baseSpeed = b.baseSpeed) := by
  rcases checkInfectionStatus_cases b now flip with hci | ⟨hci, _⟩ | ⟨hci, _⟩
  · right
    rw [hci]
    exact ⟨hB, rfl⟩
  · left
    rw [hci]
    rfl
  · right
    rw [hci]
    rcases cure_shape b with hc | hc
    · rw [hc]
      exact ⟨hB, rfl⟩
    · rw [hc]
      exact ⟨hB, rfl⟩

/-- C1.  Invariant: for an entity satisfying the constant-speed invariant
before the frame (speed equal to baseSpeed), after Ball.update returns with
the entity not Dead, the velocity magnitude again equals its baseSpeed, for
every deltaTime, arena dimensions, line set, clock value and coin flip.  (If
the entity dies during the frame the Dead-state velocity rules of C4 apply
instead, and a ball that is already Dead is skipped entirely.) -/
theorem Ball.update_preserves_speed (b : Ball) (deltaTime : ℝ) (dims : Dimensions)
    (lines : List CurvyLine) (now : ℝ) (flip : Bool)
    (hspeed : hypot b.vx b.vy = b.baseSpeed)
    (hnd : (b.update deltaTime dims lines now flip).isDead = false) :
    hypot (b.update deltaTime dims lines now flip).vx
      (b.update deltaTime dims lines now flip).vy = b.baseSpeed := by
  by_cases hd : b.isDead = true
  · rw [update_dead_eq b deltaTime dims lines now flip hd] at hnd
    rw [hnd] at hd
    cases hd
  · have hd' : b.isDead = false := by simpa using hd
    rw [update_not_dead_eq b deltaTime dims lines now flip hd'] at hnd ⊢
    have h1 : hypot (b.updatePosition deltaTime).vx (b.updatePosition deltaTime).vy
        = (b.updatePosition deltaTime).baseSpeed := hspeed
    have h2 := handleWallCollisions_speed (b.updatePosition deltaTime) dims h1
    have h2base := handleWallCollisions_baseSpeed (b.updatePosition deltaTime) dims
    have horig : hypot b.saveState.vx b.saveState.vy
        = ((b.updatePosition deltaTime).handleWallCollisions dims).baseSpeed := by
      rw [h2base]
      exact hspeed
    obtain ⟨hc3g, hb3g, hs3g⟩ := handleLineCollisionsGo_invariants b.saveState now lines
      ((b.updatePosition deltaTime).handleWallCollisions dims) 0
      (h2.trans h2base.symm) horig
    have hb3 : (((b.updatePosition deltaTime).handleWallCollisions
          dims).handleLineCollisions lines b.saveState now).baseSpeed
        = ((b.updatePosition deltaTime).handleWallCollisions dims).baseSpeed := hb3g
    have hs3 : hypot (((b.updatePosition deltaTime).handleWallCollisions
          dims).handleLineCollisions lines b.saveState now).vx
        (((b.updatePosition deltaTime).handleWallCollisions
          dims).handleLineCollisions lines b.saveState now).vy
        = ((b.updatePosition deltaTime).handleWallCollisions dims).baseSpeed := hs3g
    have hs4 : hypot (((b.updatePosition deltaTime).handleWallCollisions
          dims).handleLineCollisions lines b.saveState now).updateVisualEffects.vx
        (((b.updatePosition deltaTime).handleWallCollisions
          dims).handleLineCollisions lines b.saveState now).updateVisualEffects.vy
        = (((b.updatePosition deltaTime).handleWallCollisions
          dims).handleLineCollisions lines b.saveState now).updateVisualEffects.baseSpeed := by
      rw [updateVisualEffects_vx, updateVisualEffects_vy, updateVisualEffects_baseSpeed]
      exact hs3.trans hb3.symm
    rcases checkInfectionStatus_speed_or_dead _ now flip hs4 with hdead | ⟨hs5, hb5⟩
    · exfalso
      rw [isDead_eq_false_iff, normalizeVelocity_color] at hnd
      exact hnd hdead
    · have := normalizeVelocity_speed _ (hs5.trans hb5.symm)
      rw [this, hb5]
      rw [updateVisualEffects_baseSpeed, hb3, h2base]
      rfl

theorem checkInfectionStatus_not_infected (b : Ball) (now : ℝ) (flip : Bool)
    (h : b.isInfected = false) : b.checkInfectionStatus now flip = b := by
  unfold Ball.checkInfectionStatus
  rw [if_neg]
  intro hc
  rw [h] at hc
  exact Bool.false_ne_true hc.1

theorem handleLineCollisions_nil (b : Ball) (orig : SavedState) (now : ℝ) :
    b.handleLineCollisions [] orig now = b := rfl

/-- Witness for C1: a healthy ball with velocity (3,4) and baseSpeed 5 in a
1000 by 1000 arena keeps speed 5 across an update with no lines. -/
theorem Ball.update_preserves_speed_witness :
    hypot healthyB.vx healthyB.vy = healthyB.baseSpeed ∧
    (healthyB.update 0 dimsW [] 0 false).isDead = false ∧
    hypot (healthyB.update 0 dimsW [] 0 false).vx
      (healthyB.update 0 dimsW [] 0 false).vy = healthyB.baseSpeed := by
  have hsp : hypot healthyB.vx healthyB.vy = healthyB.baseSpeed := by
    show hypot 3 4 = 5
    exact hypot_eval (by norm_num) (by norm_num)
  have hgreen : ((((healthyB.updatePosition 0).handleWallCollisions
      dimsW).handleLineCollisions [] healthyB.saveState 0).updateVisualEffects).color
      = Color.green := by
    rw [updateVisualEffects_color]
    show ((healthyB.updatePosition 0).handleWallCollisions dimsW).color = Color.green
    rw [handleWallCollisions_color]
    rfl
  have hnd : (healthyB.update 0 dimsW [] 0 false).isDead = false := by
    rw [update_not_dead_eq healthyB 0 dimsW [] 0 false (by rfl)]
    rw [isDead_eq_false_iff, normalizeVelocity_color,
      checkInfectionStatus_not_infected _ _ _ (by simp [hgreen]), hgreen]
    simp
  exact ⟨hsp, hnd, Ball.update_preserves_speed healthyB 0 dimsW [] 0 false hsp hnd⟩

theorem checkInfectionStatus_pos (b : Ball) (now : ℝ) (flip : Bool) :
    (b.checkInfectionStatus now flip).x = b.x ∧
      (b.checkInfectionStatus now flip).y = b.y := by
  rcases checkInfectionStatus_cases b now flip with h | ⟨h, _⟩ | ⟨h, _⟩
  · rw [h]
    exact ⟨rfl, rfl⟩
  · rw [h]
    exact ⟨rfl, rfl⟩
  · rw [h]
    rcases cure_shape b with hc | hc <;> rw [hc]
    · exact ⟨rfl, rfl⟩
    · exact ⟨rfl, rfl⟩

theorem handleWallCollisions_in_arena (b : Ball) (dims : Dimensions)
    (hw : 2 * b.radius ≤ dims.width) (hh : 2 * b.radius ≤ dims.height) :
    b.radius ≤ (b.handleWallCollisions dims).x ∧
    (b.handleWallCollisions dims).x ≤ dims.width - b.radius ∧
    b.radius ≤ (b.handleWallCollisions dims).y ∧
    (b.handleWallCollisions dims).y ≤ dims.height - b.radius := by
  unfold Ball.handleWallCollisions
  dsimp only
  by_cases hX : b.x + b.radius > dims.width ∨ b.x - b.radius < 0
  · rw [if_pos hX]
    dsimp only
    by_cases hY : b.y + b.radius > dims.height ∨ b.y - b.radius < 0
    · rw [if_pos hY, if_pos (Or.inl hX)]
      rw [normalizeVelocity_x, normalizeVelocity_y]
      exact ⟨le_max_left _ _, max_le (by linarith) (min_le_right _ _),
        le_max_left _ _, max_le (by linarith) (min_le_right _ _)⟩
    · rw [if_neg hY, if_pos (Or.inl hX)]
      rw [normalizeVelocity_x, normalizeVelocity_y]
      push_neg at hY
      exact ⟨le_max_left _ _, max_le (by linarith) (min_le_right _ _),
        by linarith [hY.2], by linarith [hY.1]⟩
  · rw [if_neg hX]
    by_cases hY : b.y + b.radius > dims.height ∨ b.y - b.radius < 0
    · rw [if_pos hY, if_pos (Or.inr hY)]
      rw [normalizeVelocity_x, normalizeVelocity_y]
      push_neg at hX
      exact ⟨by linarith [hX.2], by linarith [hX.1],
        le_max_left _ _, max_le (by linarith) (min_le_right _ _)⟩
    · rw [if_neg hY, if_neg (not_or_intro hX hY)]
      push_neg at hX hY
      exact ⟨by linarith [hX.2], by linarith [hX.1],
        by linarith [hY.2], by linarith [hY.1]⟩

/-- C10.  With an empty line set and an arena at least twice the radius in
each direction, an entity that is not Dead when the frame starts ends the
frame with its center clamped inside the arena margins: radius le x le
width minus radius and radius le y le height minus radius, for every
starting position, deltaTime, clock value and coin flip (background-mode
entities can never leave the arena). -/
theorem Ball.update_stays_in_arena (b : Ball) (deltaTime : ℝ) (dims : Dimensions)
    (now : ℝ) (flip : Bool)
    (hw : 2 * b.radius ≤ dims.width) (hh : 2 * b.radius ≤ dims.height)
    (hnd : b.isDead = false) :
    b.radius ≤ (b.update deltaTime dims [] now flip).x ∧
    (b.update deltaTime dims [] now flip).x ≤ dims.width - b.radius ∧
    b.radius ≤ (b.update deltaTime dims [] now flip).y ∧
    (b.update deltaTime dims [] now flip).y ≤ dims.height - b.radius := by
  rw [update_not_dead_eq b deltaTime dims [] now flip hnd, handleLineCollisions_nil]
  rw [normalizeVelocity_x, normalizeVelocity_y]
  rcases checkInfectionStatus_pos
    (((b.updatePosition deltaTime).handleWallCollisions dims).updateVisualEffects)
    now flip with ⟨hcx, hcy⟩
  rw [hcx, hcy, updateVisualEffects_x, updateVisualEffects_y]
  exact handleWallCollisions_in_arena (b.updatePosition deltaTime) dims hw hh

/-- Witness for C10: the concrete healthy ball stays within the concrete
1000 by 1000 arena after an update with no lines. -/
theorem Ball.update_stays_in_arena_witness :
    2 * healthyB.radius ≤ dimsW.width ∧ 2 * healthyB.radius ≤ dimsW.height ∧
    healthyB.isDead = false ∧
    (healthyB.radius ≤ (healthyB.update 1 dimsW [] 0 false).x ∧
     (healthyB.update 1 dimsW [] 0 false).x ≤ dimsW.width - healthyB.radius ∧
     healthyB.radius ≤ (healthyB.update 1 dimsW [] 0 false).y ∧
     (healthyB.update 1 dimsW [] 0 false).y ≤ dimsW.height - healthyB.radius) :=
  ⟨by norm_num [healthyB, dimsW], by norm_num [healthyB, dimsW], rfl,
    Ball.update_stays_in_arena healthyB 1 dimsW 0 false
      (by norm_num [healthyB, dimsW]) (by norm_num [healthyB, dimsW]) rfl⟩

theorem checkGameOver_not_started (g : GameInstance)
    (h : g.hasStartedInfection = false) :
    g.checkGameOver = ⟨false, g.balls.length⟩ := by
  unfold GameInstance.checkGameOver
  rw [if_pos h]

theorem checkGameOver_started (g : GameInstance) (h : g.hasStartedInfection = true) :
    g.checkGameOver =
      ⟨!(g.balls.any fun b => b.isInfected) &&
        ((g.balls.any fun b => b.isDead) ||
          decide ((g.balls.filter fun b => !b.isDead).length = g.balls.length)),
        (g.balls.filter fun b => !b.isDead).length⟩ := by
  unfold GameInstance.checkGameOver
  rw [if_neg (by simp [h])]

theorem checkGameOver_isOver_iff (g : GameInstance) (h : g.hasStartedInfection = true) :
    ((g.checkGameOver).isOver = true) ↔
      ((∀ b ∈ g.balls, b.isInfected = false) ∧
        ((∃ b ∈ g.balls, b.isDead = true) ∨ ∀ b ∈ g.balls, b.isDead = false)) := by
  rw [checkGameOver_started g h]
  show (_ && _) = true ↔ _
  rw [Bool.and_eq_true, Bool.not_eq_true', Bool.or_eq_true,
    List.any_eq_false, List.any_eq_true, decide_eq_true_eq,
    List.filter_length_eq_length]
  simp only [Bool.not_eq_true, Bool.not_eq_true']

theorem checkGameOver_survivors_eq (g : GameInstance) (h : g.hasStartedInfection = true) :
    (g.checkGameOver).survivors = g.balls.countP (fun b => !b.isDead) := by
  rw [checkGameOver_started g h]
  show (List.filter _ _).length = _
  rw [List.countP_eq_length_filter]

/-- C2.  checkGameOver reports isOver = false in every state in which the
infection has not yet been started; once it has, isOver = true holds exactly
when no entity is Infected and additionally some entity is Dead or every
entity is non-Dead, and the reported survivors value is the count of
non-Dead entities. -/
theorem GameInstance.checkGameOver_spec (g : GameInstance) :
    (g.hasStartedInfection = false → (g.checkGameOver).isOver = false) ∧
    (g.hasStartedInfection = true →
      (((g.checkGameOver).isOver = true) ↔
        ((∀ b ∈ g.balls, b.isInfected = false) ∧
          ((∃ b ∈ g.balls, b.isDead = true) ∨ ∀ b ∈ g.balls, b.isDead = false))) ∧
      (g.checkGameOver).survivors = g.balls.countP (fun b => !b.isDead)) := by
  constructor
  · intro h
    rw [checkGameOver_not_started g h]
  · intro h
    exact ⟨checkGameOver_isOver_iff g h, checkGameOver_survivors_eq g h⟩

/-- Witness for C2: in a concrete pre-infection state checkGameOver is not
over, and in a concrete post-infection state the survivors value is the
non-Dead count. -/
theorem GameInstance.checkGameOver_spec_witness :
    gC2.hasStartedInfection = false ∧ (gC2.checkGameOver).isOver = false ∧
    gC3.hasStartedInfection = true ∧
    (gC3.checkGameOver).survivors = gC3.balls.countP (fun b => !b.isDead) :=
  ⟨rfl, (GameInstance.checkGameOver_spec gC2).1 rfl, rfl,
    ((GameInstance.checkGameOver_spec gC3).2 rfl).2⟩

/-- Counterexample for C3: the claimed transient window (zero Infected, zero
Dead, not yet every entity "saved" in the claim's sense) cannot keep the
game running: in the concrete post-infection state gC3 with one healthy ball
and no infected or dead entities, checkGameOver already reports
isOver = true, so no reachable zero-infected state has isOver = false. -/
theorem GameInstance.checkGameOver_zero_infected_cex :
    gC3.hasStartedInfection = true ∧
    gC3.balls = [healthyB] ∧
    healthyB.isInfected = false ∧ healthyB.isDead = false ∧
    (gC3.checkGameOver).isOver = true :=
  ⟨rfl, rfl, rfl, rfl, rfl⟩

/-- C3 amended: the game-over predicate is not strictly stronger than "no
Infected entities remain" — it is equivalent to it.  Once the infection has
started, isOver = true holds exactly when no entity is Infected, because the
survivors count equals the total count precisely when no entity is Dead,
which makes the disjunction "some entity died or every entity survived" a
tautology. -/
theorem GameInstance.checkGameOver_iff_no_infected (g : GameInstance)
    (h : g.hasStartedInfection = true) :
    (g.checkGameOver).isOver = true ↔ ∀ b ∈ g.balls, b.isInfected = false := by
  rw [checkGameOver_isOver_iff g h]
  constructor
  · exact fun hend => hend.1
  · intro h1
    refine ⟨h1, ?_⟩
    by_cases hd : ∃ b ∈ g.balls, b.isDead = true
    · exact Or.inl hd
    · push_neg at hd
      right
      intro b hb
      simpa using hd b hb

/-- Witness for C3's amended claim: the concrete post-infection
zero-infected state evaluates to isOver = true. -/
theorem GameInstance.checkGameOver_iff_no_infected_witness :
    (gC3.checkGameOver).isOver = true :=
  (GameInstance.checkGameOver_iff_no_infected gC3 rfl).mpr
    (by
      intro b hb
      simp only [gC3, List.mem_singleton] at hb
      rw [hb]
      rfl)

/-- Counterexample for C5: calling infect on the already-Infected entity
infectedB at time 200 does not leave the recorded infection start time
unchanged: it is re-recorded from some 0 to some 200. -/
theorem Ball.infect_reinfect_cex :
    infectedB.isInfected = true ∧
    infectedB.infectedTime = some 0 ∧
    (infectedB.infect 200).infectedTime = some 200 ∧
    (infectedB.infect 200).infectedTime ≠ infectedB.infectedTime := by
  refine ⟨rfl, rfl, rfl, ?_⟩
  show some (200 : ℝ) ≠ some 0
  norm_num

/-- C5 amended: infect on an already-Infected entity leaves the health state
Infected (the color unchanged), keeps the target visual scale at the
infected value 1.2, and touches no physics field, but it is not a complete
no-op: the recorded infection start time is re-set to the time of the call
(so repeated contact extends the infection window). -/
theorem Ball.infect_on_infected_spec (b : Ball) (now : ℝ)
    (h : b.isInfected = true) :
    (b.infect now).isInfected = true ∧
    (b.infect now).color = b.color ∧
    (b.infect now).infectedTime = some now ∧
    (b.infect now).targetScale = 1.2 ∧
    (b.infect now).x = b.x ∧ (b.infect now).y = b.y ∧
    (b.infect now).vx = b.vx ∧ (b.infect now).vy = b.vy ∧
    (b.infect now).radius = b.radius ∧ (b.infect now).baseSpeed = b.baseSpeed ∧
    (b.infect now).pulsePhase = b.pulsePhase ∧ (b.infect now).scale = b.scale ∧
    (b.infect now).lastCollisionTime = b.lastCollisionTime := by
  rw [isInfected_eq_true_iff] at h
  refine ⟨rfl, ?_, rfl, rfl, rfl, rfl, rfl, rfl, rfl, rfl, rfl, rfl, rfl⟩
  show Color.red = b.color
  rw [h]

/-- Witness for C5's amended claim at the concrete infected entity. -/
theorem Ball.infect_on_infected_spec_witness :
    infectedB.isInfected = true ∧
    (infectedB.infect 200).color = infectedB.color ∧
    (infectedB.infect 200).infectedTime = some 200 :=
  ⟨rfl, (Ball.infect_on_infected_spec infectedB 200 rfl).2.1,
    (Ball.infect_on_infected_spec infectedB 200 rfl).2.2.1⟩

/-- C7.  In the per-line collision handling of Ball.update (the loop passes
orig = the state saved by saveState when the update began), when a line
reports a collision outside the cooldown whose correction displacement
exceeds twice the construction-time radius, the entity's position and
velocity are restored exactly to the saved values, and no velocity
reflection is applied for that collision (the velocity is exactly the saved
one, not a reflected one). -/
theorem Ball.rollback_on_large_correction (b : Ball) (l : CurvyLine) (i : Nat)
    (orig : SavedState) (now : ℝ)
    (hcool : b.isCollisionInCooldown i now = false)
    (hcol : (l.getCollisionInfo b).collides = true)
    (hbig : hypot ((l.getCollisionInfo b).correctedX - b.x)
        ((l.getCollisionInfo b).correctedY - b.y) > b.radius * 2) :
    (b.processLine l i orig now).x = orig.x ∧
    (b.processLine l i orig now).y = orig.y ∧
    (b.processLine l i orig now).vx = orig.vx ∧
    (b.processLine l i orig now).vy = orig.vy := by
  rw [processLine_rollback b l i orig now hcool hcol hbig]
  exact ⟨rfl, rfl, rfl, rfl⟩

theorem scan_lineC7 : scanSegments ballC7.getPosition (segmentsOf lineC7.points)
    = some (50, ⟨50, 0⟩) := by
  show scanSegments ⟨0, 0⟩ [(⟨50, 0⟩, ⟨100, 0⟩)] = some (50, ⟨50, 0⟩)
  have hq : closestPointOnSegment ⟨0, 0⟩ ⟨50, 0⟩ ⟨100, 0⟩ = (⟨50, 0⟩ : Point) := by
    unfold closestPointOnSegment
    dsimp only
    rw [hypot_sq]
    rw [if_pos (by norm_num)]
  unfold scanSegments
  rw [List.foldl_cons, List.foldl_nil]
  unfold scanStep
  rw [if_neg (by
    rw [show segLength (⟨50, 0⟩, ⟨100, 0⟩) = 50 from
      hypot_eval (by norm_num) (by norm_num)]
    norm_num)]
  dsimp only
  rw [hq, show pointDist ⟨0, 0⟩ ⟨50, 0⟩ = 50 from
    hypot_eval (by norm_num) (by norm_num)]

theorem info_lineC7 : lineC7.getCollisionInfo ballC7 = ⟨true, ⟨-1, 0⟩, -50, 0⟩ := by
  rw [getCollisionInfo_scan_near lineC7 ballC7 (50, ⟨50, 0⟩) scan_lineC7
    (by show ¬ (50 : ℝ) ≥ ballC7.getRadius
        show ¬ (50 : ℝ) ≥ 10 * 10
        norm_num)
    (by show ¬ hypot ((0 : ℝ) - 50) ((0 : ℝ) - 0) < 0.0001
        rw [show hypot ((0 : ℝ) - 50) ((0 : ℝ) - 0) = 50 from
          hypot_eval (by norm_num) (by norm_num)]
        norm_num)]
  show CollisionInfo.mk true
      ⟨((0 : ℝ) - 50) / hypot ((0 : ℝ) - 50) ((0 : ℝ) - 0),
        ((0 : ℝ) - 0) / hypot ((0 : ℝ) - 50) ((0 : ℝ) - 0)⟩
      (50 + ((0 : ℝ) - 50) / hypot ((0 : ℝ) - 50) ((0 : ℝ) - 0) * (10 * 10))
      (0 + ((0 : ℝ) - 0) / hypot ((0 : ℝ) - 50) ((0 : ℝ) - 0) * (10 * 10))
    = ⟨true, ⟨-1, 0⟩, -50, 0⟩
  rw [show hypot ((0 : ℝ) - 50) ((0 : ℝ) - 0) = 50 from
    hypot_eval (by norm_num) (by norm_num)]
  simp only [CollisionInfo.mk.injEq, Point.mk.injEq]
  norm_num

/-- Witness for C7: the concrete scaled-up entity collides with the
concrete line with a correction displacement of 50, which exceeds twice its
construction radius 10, and the per-line step restores the saved state. -/
theorem Ball.rollback_on_large_correction_witness :
    ballC7.isCollisionInCooldown 0 0 = false ∧
    (lineC7.getCollisionInfo ballC7).collides = true ∧
    hypot ((lineC7.getCollisionInfo ballC7).correctedX - ballC7.x)
      ((lineC7.getCollisionInfo ballC7).correctedY - ballC7.y) > ballC7.radius * 2 ∧
    (ballC7.processLine lineC7 0 origW 0).x = origW.x ∧
    (ballC7.processLine lineC7 0 origW 0).vx = origW.vx := by
  have hcool : ballC7.isCollisionInCooldown 0 0 = false := rfl
  have hcol : (lineC7.getCollisionInfo ballC7).collides = true := by
    rw [info_lineC7]
  have hbig : hypot ((lineC7.getCollisionInfo ballC7).correctedX - ballC7.x)
      ((lineC7.getCollisionInfo ballC7).correctedY - ballC7.y) > ballC7.radius * 2 := by
    rw [info_lineC7]
    show hypot ((-50 : ℝ) - 0) ((0 : ℝ) - 0) > 10 * 2
    rw [show hypot ((-50 : ℝ) - 0) ((0 : ℝ) - 0) = 50 from
      hypot_eval (by norm_num) (by norm_num)]
    norm_num
  have h := Ball.rollback_on_large_correction ballC7 lineC7 0 origW 0 hcool hcol hbig
  exact ⟨hcool, hcol, hbig, h.1, h.2.2.1⟩

theorem hypot_congr {a b c d : ℝ} (h1 : a * a + b * b = c * c + d * d) :
    hypot a b = hypot c d := by
  unfold hypot
  rw [h1]

theorem hypot_unit_scale (dx dy s : ℝ) (hd : 0 < hypot dx dy) (hs : 0 ≤ s) :
    hypot (dx / hypot dx dy * s) (dy / hypot dx dy * s) = s := by
  apply hypot_eval hs
  have hne := ne_of_gt hd
  have hsq := hypot_sq dx dy
  field_simp
  linear_combination (-(s ^ 2)) * hsq

/-- C8.  For two non-Dead entities at positive center distance below the sum
of their construction radii, exactly one of them Infected, a single
checkCollisionWith call infects both, and assigns each entity a velocity of
magnitude equal to its own baseSpeed pointing along the center-to-center
axis directly away from the other entity. -/
theorem Ball.collision_infection_and_velocity (a b : Ball) (now : ℝ)
    (ha : a.isDead = false) (hb : b.isDead = false)
    (hsa : 0 < a.baseSpeed) (hsb : 0 < b.baseSpeed)
    (hdpos : 0 < hypot (a.x - b.x) (a.y - b.y))
    (hdlt : hypot (a.x - b.x) (a.y - b.y) < a.radius + b.radius)
    (hinf : a.isInfected ≠ b.isInfected) :
    (Ball.checkCollisionWith a b now).1.isInfected = true ∧
    (Ball.checkCollisionWith a b now).2.isInfected = true ∧
    (Ball.checkCollisionWith a b now).1.vx
      = (a.x - b.x) / hypot (a.x - b.x) (a.y - b.y) * a.baseSpeed ∧
    (Ball.checkCollisionWith a b now).1.vy
      = (a.y - b.y) / hypot (a.x - b.x) (a.y - b.y) * a.baseSpeed ∧
    (Ball.checkCollisionWith a b now).2.vx
      = -((a.x - b.x) / hypot (a.x - b.x) (a.y - b.y)) * b.baseSpeed ∧
    (Ball.checkCollisionWith a b now).2.vy
      = -((a.y - b.y) / hypot (a.x - b.x) (a.y - b.y)) * b.baseSpeed ∧
    hypot (Ball.checkCollisionWith a b now).1.vx
      (Ball.checkCollisionWith a b now).1.vy = a.baseSpeed ∧
    hypot (Ball.checkCollisionWith a b now).2.vx
      (Ball.checkCollisionWith a b now).2.vy = b.baseSpeed := by
  have hmag1 : hypot ((a.x - b.x) / hypot (a.x - b.x) (a.y - b.y) * a.baseSpeed)
      ((a.y - b.y) / hypot (a.x - b.x) (a.y - b.y) * a.baseSpeed) = a.baseSpeed :=
    hypot_unit_scale _ _ _ hdpos (le_of_lt hsa)
  have hmag2 : hypot (-((a.x - b.x) / hypot (a.x - b.x) (a.y - b.y)) * b.baseSpeed)
      (-((a.y - b.y) / hypot (a.x - b.x) (a.y - b.y)) * b.baseSpeed) = b.baseSpeed := by
    rw [hypot_congr (by ring :
      -((a.x - b.x) / hypot (a.x - b.x) (a.y - b.y)) * b.baseSpeed *
        (-((a.x - b.x) / hypot (a.x - b.x) (a.y - b.y)) * b.baseSpeed) +
      -((a.y - b.y) / hypot (a.x - b.x) (a.y - b.y)) * b.baseSpeed *
        (-((a.y - b.y) / hypot (a.x - b.x) (a.y - b.y)) * b.baseSpeed)
      = (a.x - b.x) / hypot (a.x - b.x) (a.y - b.y) * b.baseSpeed *
          ((a.x - b.x) / hypot (a.x - b.x) (a.y - b.y) * b.baseSpeed) +
        (a.y - b.y) / hypot (a.x - b.x) (a.y - b.y) * b.baseSpeed *
          ((a.y - b.y) / hypot (a.x - b.x) (a.y - b.y) * b.baseSpeed))]
    exact hypot_unit_scale _ _ _ hdpos (le_of_lt hsb)
  have hdlt' : Real.sqrt ((a.x - b.x) * (a.x - b.x) + (a.y - b.y) * (a.y - b.y))
      < a.radius + b.radius := hdlt
  unfold Ball.checkCollisionWith
  rw [if_neg (by simp [ha, hb])]
  dsimp only
  rw [if_pos hdlt']
  unfold Ball.handleBallCollision
  by_cases hai : a.isInfected = true
  · have hbi : b.isInfected = false := by
      cases hbv : b.isInfected
      · rfl
      · exact absurd (hai.trans hbv.symm) hinf
    rw [if_pos (show (a.isInfected && !b.isInfected) = true by rw [hai, hbi]; rfl)]
    dsimp only
    rw [if_neg (ne_of_gt hdpos)]
    exact ⟨hai, rfl, rfl, rfl, rfl, rfl, hmag1, hmag2⟩
  · have hai' : a.isInfected = false := by simpa using hai
    have hbi : b.isInfected = true := by
      cases hbv : b.isInfected
      · exact absurd (hai'.trans hbv.symm) hinf
      · rfl
    rw [if_neg (show ¬ (a.isInfected && !b.isInfected) = true by simp [hai']),
      if_pos (show (!a.isInfected && b.isInfected) = true by rw [hai', hbi]; rfl)]
    dsimp only
    rw [if_neg (ne_of_gt hdpos)]
    exact ⟨rfl, hbi, rfl, rfl, rfl, rfl, hmag1, hmag2⟩

/-- Witness for C8 at two concrete entities at distance 5 with radii 3 + 3,
one infected: after the call both are infected and the first keeps speed 5. -/
theorem Ball.collision_infection_and_velocity_witness :
    ballC8a.isDead = false ∧ ballC8b.isDead = false ∧
    0 < hypot (ballC8a.x - ballC8b.x) (ballC8a.y - ballC8b.y) ∧
    hypot (ballC8a.x - ballC8b.x) (ballC8a.y - ballC8b.y)
      < ballC8a.radius + ballC8b.radius ∧
    ballC8a.isInfected ≠ ballC8b.isInfected ∧
    (Ball.checkCollisionWith ballC8a ballC8b 300).1.isInfected = true ∧
    (Ball.checkCollisionWith ballC8a ballC8b 300).2.isInfected = true ∧
    hypot (Ball.checkCollisionWith ballC8a ballC8b 300).1.vx
      (Ball.checkCollisionWith ballC8a ballC8b 300).1.vy = ballC8a.baseSpeed := by
  have hdist : hypot (ballC8a.x - ballC8b.x) (ballC8a.y - ballC8b.y) = 5 := by
    show hypot ((0 : ℝ) - 3) ((0 : ℝ) - 4) = 5
    exact hypot_eval (by norm_num) (by norm_num)
  have hdpos : 0 < hypot (ballC8a.x - ballC8b.x) (ballC8a.y - ballC8b.y) := by
    rw [hdist]
    norm_num
  have hdlt : hypot (ballC8a.x - ballC8b.x) (ballC8a.y - ballC8b.y)
      < ballC8a.radius + ballC8b.radius := by
    rw [hdist]
    show (5 : ℝ) < 3 + 3
    norm_num
  have hinf : ballC8a.isInfected ≠ ballC8b.isInfected := by decide
  have h := Ball.collision_infection_and_velocity ballC8a ballC8b 300 rfl rfl
    (show (0 : ℝ) < 5 by norm_num) (show (0 : ℝ) < 10 by norm_num) hdpos hdlt hinf
  exact ⟨rfl, rfl, hdpos, hdlt, hinf, h.1, h.2.1, h.2.2.2.2.2.2.1⟩

theorem runLineSteps_disappearing (ds : List ℝ) :
    ∀ (l : CurvyLine), l.isDisappearing = true →
      l.disappearProgress < CurvyLine.DISAPPEAR_DURATION →
      (∀ d ∈ ds, 0 ≤ d) →
      (runLineSteps ds l = none ↔
        CurvyLine.DISAPPEAR_DURATION ≤ l.disappearProgress + ds.sum) := by
  induction ds with
  | nil =>
    intro l _ hp _
    rw [List.sum_nil, add_zero]
    constructor
    · intro h
      cases h
    · intro h
      exact absurd h (not_le.mpr hp)
  | cons d rest ih =>
    intro l hl hp hnn
    have hd0 : 0 ≤ d := hnn d (List.mem_cons_self d rest)
    have hrest : ∀ x ∈ rest, 0 ≤ x := fun x hx => hnn x (List.mem_cons_of_mem d hx)
    by_cases hpd : l.disappearProgress + d ≥ CurvyLine.DISAPPEAR_DURATION
    · have hstep : GameInstance.lineStep d l = none := by
        unfold GameInstance.lineStep CurvyLine.update
        rw [if_pos hl]
        dsimp only
        rw [if_pos hl, if_pos hpd]
        rw [if_pos (show ({ l with disappearProgress :=
            CurvyLine.DISAPPEAR_DURATION } : CurvyLine).isFullyDisappeared = true by
          simp [CurvyLine.isFullyDisappeared])]
      simp only [runLineSteps, hstep]
      have hsum : (0:ℝ) ≤ rest.sum := List.sum_nonneg hrest
      rw [List.sum_cons]
      constructor
      · intro _
        linarith
      · intro _
        trivial
    · push_neg at hpd
      have hstep : GameInstance.lineStep d l =
          some { l with disappearProgress := l.disappearProgress + d } := by
        unfold GameInstance.lineStep CurvyLine.update
        rw [if_pos hl]
        dsimp only
        rw [if_pos hl, if_neg (not_le.mpr hpd)]
        rw [if_neg (show ¬ ({ l with disappearProgress :=
            l.disappearProgress + d } : CurvyLine).isFullyDisappeared = true by
          simp [CurvyLine.isFullyDisappeared]
          exact hpd)]
      simp only [runLineSteps, hstep]
      rw [ih { l with disappearProgress := l.disappearProgress + d } hl hpd hrest,
        List.sum_cons]
      dsimp only
      constructor
      · intro h
        linarith
      · intro h
        linarith

theorem runLineSteps_not_disappearing (ds : List ℝ) (l : CurvyLine)
    (h : l.isDisappearing = false) : runLineSteps ds l = some l := by
  induction ds with
  | nil => rfl
  | cons d rest ih =>
    have hstep : GameInstance.lineStep d l = some l := by
      unfold GameInstance.lineStep
      rw [if_neg (by simp [h])]
    simp only [runLineSteps, hstep]
    exact ih

/-- C9.  Line lifecycle: (1) a breach reported by updateLine appends a line
that is disappearing with zero accumulated time; (2) GameInstance.update
filters the line set through the per-line step lineStep; (3) tracking one
freshly-breached line through that per-line step over a sequence of
nonnegative frame deltas, the line is removed exactly when the accumulated
deltaTime reaches DISAPPEAR_DURATION (0.5 s) and never at any smaller
accumulated time; (4) a line that is not disappearing (in particular a
completed line that was never breached) survives every frame completely
unchanged. -/
theorem CurvyLine.disappear_lifecycle :
    (∀ (g : GameInstance) (x y : ℝ), (g.updateLine x y).2 = true →
      ∃ l : CurvyLine, (g.updateLine x y).1.lines = g.lines ++ [l] ∧
        l.isDisappearing = true ∧ l.disappearProgress = 0) ∧
    (∀ (g : GameInstance) (deltaTime : ℝ) (isActive : Bool) (now : ℝ)
      (flips : Nat → Bool),
      (g.update deltaTime isActive now flips).lines
        = g.lines.filterMap (GameInstance.lineStep deltaTime)) ∧
    (∀ (l : CurvyLine) (ds : List ℝ), (∀ d ∈ ds, 0 ≤ d) →
      (runLineSteps ds (l.startDisappearing) = none ↔
        CurvyLine.DISAPPEAR_DURATION ≤ ds.sum)) ∧
    (∀ (l : CurvyLine) (ds : List ℝ), l.isDisappearing = false →
      runLineSteps ds l = some l) := by
  refine ⟨?_, ?_, ?_, ?_⟩
  · intro g x y h
    unfold GameInstance.updateLine at h ⊢
    cases hd : g.isDrawing
    · rw [hd] at h
      exact Bool.noConfusion h
    · cases hcl : g.currentLine
      · rw [hd, hcl] at h
        exact Bool.noConfusion h
      · rename_i cl
        rw [hd, hcl] at h
        dsimp only at h ⊢
        by_cases hc : (g.balls.any fun b =>
            !b.isDead && (cl.addPoint x y).collidesWithBall b) = true
        · rw [if_pos hc] at h ⊢
          exact ⟨(cl.addPoint x y).startDisappearing, rfl, rfl, rfl⟩
        · rw [if_neg hc] at h
          cases h
  · intro g deltaTime isActive now flips
    rfl
  · intro l ds hnn
    have h := runLineSteps_disappearing ds (l.startDisappearing) rfl
      (by
        show (0 : ℝ) < CurvyLine.DISAPPEAR_DURATION
        unfold CurvyLine.DISAPPEAR_DURATION
        norm_num) hnn
    rw [h]
    show CurvyLine.DISAPPEAR_DURATION ≤ 0 + ds.sum ↔ _
    rw [zero_add]
  · exact fun l ds h => runLineSteps_not_disappearing ds l h

theorem addPoint_lineDrawC9 : lineDrawC9.addPoint 100 100
    = ⟨[⟨50, 100⟩, ⟨100, 100⟩], false, false, 0⟩ := by
  unfold CurvyLine.addPoint
  rw [show lineDrawC9.points.getLast? = some ⟨50, 100⟩ from rfl]
  dsimp only
  rw [show hypot ((100 : ℝ) - 50) ((100 : ℝ) - 100) = 50 from
    hypot_eval (by norm_num) (by norm_num)]
  rw [if_pos (show (50 : ℝ) > CurvyLine.MIN_POINT_DISTANCE by
    norm_num [CurvyLine.MIN_POINT_DISTANCE])]
  rfl

theorem collides_gC9 :
    (⟨[⟨50, 100⟩, ⟨100, 100⟩], false, false, 0⟩ : CurvyLine).collidesWithBall healthyB
      = true := by
  have hq : closestPointOnSegment ⟨100, 100⟩ ⟨50, 100⟩ ⟨100, 100⟩ = (⟨100, 100⟩ : Point) := by
    unfold closestPointOnSegment
    dsimp only
    rw [hypot_sq]
    rw [if_neg (by norm_num), if_neg (by norm_num)]
    simp only [Point.mk.injEq]
    norm_num
  unfold CurvyLine.collidesWithBall
  rw [show healthyB.getPosition = (⟨100, 100⟩ : Point) from rfl,
    show healthyB.getRadius = 20 from by norm_num [Ball.getRadius, healthyB]]
  dsimp only
  rw [show segmentsOf [(⟨50, 100⟩ : Point), ⟨100, 100⟩] = [(⟨50, 100⟩, ⟨100, 100⟩)] from rfl]
  simp only [List.any_cons, List.any_nil, Bool.or_false]
  rw [if_neg (show ¬ segLength (⟨50, 100⟩, ⟨100, 100⟩) < 1 by
    rw [show segLength (⟨50, 100⟩, ⟨100, 100⟩) = 50 from
      hypot_eval (by norm_num) (by norm_num)]
    norm_num)]
  rw [hq, show pointDist ⟨100, 100⟩ (⟨100, 100⟩ : Point) = 0 from
    hypot_eval (by norm_num) (by norm_num)]
  simp only [decide_eq_true_eq]
  norm_num

theorem updateLine_gC9 : (gC9.updateLine 100 100).2 = true := by
  unfold GameInstance.updateLine
  rw [show gC9.isDrawing = true from rfl, show gC9.currentLine = some lineDrawC9 from rfl]
  dsimp only
  rw [addPoint_lineDrawC9]
  rw [if_pos (show (gC9.balls.any fun b => !b.isDead &&
      (⟨[⟨50, 100⟩, ⟨100, 100⟩], false, false, 0⟩ : CurvyLine).collidesWithBall b) = true by
    rw [show gC9.balls = [healthyB] from rfl]
    simp only [List.any_cons, List.any_nil, Bool.or_false]
    rw [collides_gC9]
    rfl)]

/-- Witness for C9: a concrete breach during drawing appends a disappearing
line; a freshly-breached line survives until the accumulated deltas reach
0.5 s (here removed after 0.3 + 0.3); a non-disappearing line survives
frames unchanged. -/
theorem CurvyLine.disappear_lifecycle_witness :
    (gC9.updateLine 100 100).2 = true ∧
    (∃ l : CurvyLine, (gC9.updateLine 100 100).1.lines = gC9.lines ++ [l] ∧
      l.isDisappearing = true ∧ l.disappearProgress = 0) ∧
    runLineSteps [0.3, 0.3] (lineC9.startDisappearing) = none ∧
    runLineSteps [1, 2] lineC9 = some lineC9 := by
  have h1 := updateLine_gC9
  refine ⟨h1, CurvyLine.disappear_lifecycle.1 gC9 100 100 h1, ?_, ?_⟩
  · refine (CurvyLine.disappear_lifecycle.2.2.1 lineC9 [0.3, 0.3] ?_).mpr ?_
    · intro d hd
      fin_cases hd <;> norm_num
    · show CurvyLine.DISAPPEAR_DURATION ≤ List.sum [0.3, 0.3]
      norm_num [CurvyLine.DISAPPEAR_DURATION, List.sum_cons, List.sum_nil]
  · exact CurvyLine.disappear_lifecycle.2.2.2 lineC9 [1, 2] rfl

theorem processLine_color (b : Ball) (l : CurvyLine) (i : Nat) (orig : SavedState)
    (now : ℝ) : (b.processLine l i orig now).color = b.color := by
  by_cases hcool : b.isCollisionInCooldown i now = true
  · rw [processLine_cooldown b l i orig now hcool]
  · have hcool' : b.isCollisionInCooldown i now = false := by simpa using hcool
    by_cases hcol2 : (l.getCollisionInfo b).collides = true
    · by_cases hbig : hypot ((l.getCollisionInfo b).correctedX - b.x)
          ((l.getCollisionInfo b).correctedY - b.y) > b.radius * 2
      · rw [processLine_rollback b l i orig now hcool' hcol2 hbig]
      · rw [processLine_response b l i orig now hcool' hcol2 hbig]
        rw [handleCollisionResponse_shape]
    · rw [processLine_noCollision b l i orig now hcool' (by simpa using hcol2)]

theorem handleLineCollisionsGo_color (orig : SavedState) (now : ℝ) :
    ∀ (ls : List CurvyLine) (b : Ball) (i : Nat),
      (Ball.handleLineCollisionsGo b ls i orig now).color = b.color := by
  intro ls
  induction ls with
  | nil => intro b i; rfl
  | cons l rest ih =>
    intro b i
    simp only [Ball.handleLineCollisionsGo]
    rw [ih]
    exact processLine_color b l i orig now

theorem update_color_green (b : Ball) (deltaTime : ℝ) (dims : Dimensions)
    (ls : List CurvyLine) (now : ℝ) (flip : Bool) (h : b.color = Color.green) :
    (b.update deltaTime dims ls now flip).color = Color.green := by
  have hd : b.isDead = false := by simp [Ball.isDead, h]
  have hcol : (((b.updatePosition deltaTime).handleWallCollisions
      dims).handleLineCollisions ls b.saveState now).updateVisualEffects.color
      = Color.green := by
    rw [updateVisualEffects_color]
    show (Ball.handleLineCollisionsGo ((b.updatePosition deltaTime).handleWallCollisions
      dims) ls 0 b.saveState now).color = Color.green
    rw [handleLineCollisionsGo_color, handleWallCollisions_color]
    exact h
  rw [update_not_dead_eq b deltaTime dims ls now flip hd, normalizeVelocity_color,
    checkInfectionStatus_not_infected _ now flip (by simp [hcol]), hcol]

theorem cure_color_green (b : Ball) (h : b.color = Color.green) :
    (b.cure).color = Color.green := by
  rcases cure_shape b with hc | hc
  · rw [hc]
    exact h
  · rw [hc]

theorem checkCollisionWith_green (a b : Ball) (now : ℝ)
    (ha : a.color = Color.green) (hb : b.color = Color.green) :
    (Ball.checkCollisionWith a b now).1.color = Color.green ∧
    (Ball.checkCollisionWith a b now).2.color = Color.green := by
  unfold Ball.checkCollisionWith
  split
  · exact ⟨ha, hb⟩
  · dsimp only
    split
    · unfold Ball.handleBallCollision
      rw [if_neg (show ¬ (a.isInfected && !b.isInfected) = true by
          simp [Ball.isInfected, ha]),
        if_neg (show ¬ (!a.isInfected && b.isInfected) = true by
          simp [Ball.isInfected, hb])]
      dsimp only
      split
      · exact ⟨ha, hb⟩
      · exact ⟨ha, hb⟩
    · exact ⟨ha, hb⟩

theorem collideOne_green (now : ℝ) :
    ∀ (rest : List Ball) (b : Ball), b.color = Color.green →
      (∀ c ∈ rest, c.color = Color.green) →
      ((collideOne b rest now).1.color = Color.green ∧
        ∀ c ∈ (collideOne b rest now).2, c.color = Color.green) := by
  intro rest
  induction rest with
  | nil =>
    intro b hb _
    exact ⟨hb, by intro c hc; cases hc⟩
  | cons c cs ih =>
    intro b hb hall
    have hc := hall c (List.mem_cons_self c cs)
    have hcs : ∀ x ∈ cs, x.color = Color.green :=
      fun x hx => hall x (List.mem_cons_of_mem c hx)
    have h1 := checkCollisionWith_green b c now hb hc
    have h2 := ih (Ball.checkCollisionWith b c now).1 h1.1 hcs
    simp only [collideOne]
    refine ⟨h2.1, ?_⟩
    intro x hx
    rcases List.mem_cons.mp hx with rfl | hx'
    · exact h1.2
    · exact h2.2 x hx'

theorem collideAllGo_green (now : ℝ) :
    ∀ (fuel : Nat) (balls : List Ball), (∀ c ∈ balls, c.color = Color.green) →
      ∀ c ∈ collideAllGo fuel balls now, c.color = Color.green := by
  intro fuel
  induction fuel with
  | zero =>
    intro balls h c hc
    exact h c hc
  | succ n ih =>
    intro balls h c hc
    cases balls with
    | nil => cases hc
    | cons b bs =>
      simp only [collideAllGo] at hc
      have hb := h b (List.mem_cons_self b bs)
      have hbs : ∀ x ∈ bs, x.color = Color.green :=
        fun x hx => h x (List.mem_cons_of_mem b hx)
      have h1 := collideOne_green now bs b hb hbs
      rcases List.mem_cons.mp hc with rfl | hc'
      · exact h1.1
      · exact ih _ h1.2 c hc'

theorem initBall_green (dims : Dimensions) (settings : GameSettings)
    (seed : BallSeed) : (initBall dims settings seed).color = Color.green := by
  unfold initBall
  exact cure_color_green _ rfl

theorem initializeBalls_green (dims : Dimensions) (settings : GameSettings)
    (seeds : Nat → BallSeed) :
    ∀ b ∈ initializeBalls dims settings seeds, b.color = Color.green := by
  intro b hb
  unfold initializeBalls at hb
  rcases List.mem_map.mp hb with ⟨i, _, rfl⟩
  exact initBall_green dims settings (seeds i)

theorem forall_mem_mapIdx {α β : Type _} (f : Nat → α → β) (l : List α)
    (P : β → Prop) (h : ∀ (i : Nat) (a : α), a ∈ l → P (f i a)) :
    ∀ x ∈ l.mapIdx f, P x := by
  intro x hx
  rw [List.mem_iff_getElem] at hx
  obtain ⟨i, hi, hx⟩ := hx
  rw [List.getElem_mapIdx] at hx
  rw [List.length_mapIdx] at hi
  exact hx ▸ h i _ (List.getElem_mem hi)

theorem updateLine_balls_flag (g : GameInstance) (x y : ℝ) :
    (g.updateLine x y).1.balls = g.balls ∧
    (g.updateLine x y).1.hasStartedInfection = g.hasStartedInfection := by
  unfold GameInstance.updateLine
  cases hd : g.isDrawing
  · exact ⟨rfl, rfl⟩
  · cases hcl : g.currentLine
    · exact ⟨rfl, rfl⟩
    · dsimp only
      split
      · exact ⟨rfl, rfl⟩
      · exact ⟨rfl, rfl⟩

theorem endLine_balls_flag (g : GameInstance) :
    g.endLine.balls = g.balls ∧
    g.endLine.hasStartedInfection = g.hasStartedInfection := by
  unfold GameInstance.endLine
  cases hd : g.isDrawing
  · exact ⟨rfl, rfl⟩
  · cases hcl : g.currentLine
    · exact ⟨rfl, rfl⟩
    · exact ⟨rfl, rfl⟩

theorem reachable_pre_infection_green (g : GameInstance) (hr : Reachable g) :
    g.hasStartedInfection = false → ∀ b ∈ g.balls, b.color = Color.green := by
  induction hr with
  | init dims settings seeds =>
    intro _
    exact initializeBalls_green dims settings seeds
  | update g deltaTime isActive now flips _ ih =>
    intro hflag
    have hgreen := ih hflag
    show ∀ b ∈ collideAllGo _ _ now, b.color = Color.green
    apply collideAllGo_green
    apply forall_mem_mapIdx
    intro i a ha
    exact update_color_green a deltaTime g.dimensions _ now (flips i) (hgreen a ha)
  | startInfection g pick now _ ih =>
    intro hflag
    unfold GameInstance.startInfection at hflag ⊢
    by_cases hc : g.balls.length > 0 ∧ g.hasStartedInfection = false
    · rw [if_pos hc] at hflag
      exact Bool.noConfusion hflag
    · rw [if_neg hc] at hflag ⊢
      exact ih hflag
  | startLine g x y _ ih =>
    intro hflag
    exact ih hflag
  | updateLine g x y _ ih =>
    intro hflag
    rw [(updateLine_balls_flag g x y).2] at hflag
    rw [(updateLine_balls_flag g x y).1]
    exact ih hflag
  | endLine g _ ih =>
    intro hflag
    rw [(endLine_balls_flag g).2] at hflag
    rw [(endLine_balls_flag g).1]
    exact ih hflag
  | reset g seeds _ _ =>
    intro _
    exact initializeBalls_green g.dimensions g.settings seeds
  | resize g dims seeds _ _ =>
    intro _
    exact initializeBalls_green dims g.settings seeds

/-- C4.  Dead is terminal: Ball.die zeroes the velocity and marks the entity
Dead; updating a Dead entity is the identity, so its position and velocity
(exactly (0,0)) never change in any subsequent update; an entity-entity
collision involving a Dead entity changes neither entity, so a Dead entity
neither infects nor is infected on contact; cure leaves a Dead entity
unchanged; and in every reachable state in which the infection flag is still
unset no entity is Dead, so the remaining infect call site, startInfection —
which is a no-op once the flag is set — can never target a Dead entity. -/
theorem Ball.dead_is_terminal :
    (∀ b : Ball, (b.die).vx = 0 ∧ (b.die).vy = 0 ∧ (b.die).isDead = true) ∧
    (∀ (b : Ball) (deltaTime : ℝ) (dims : Dimensions) (ls : List CurvyLine)
      (now : ℝ) (flip : Bool), b.isDead = true →
      b.update deltaTime dims ls now flip = b) ∧
    (∀ (a b : Ball) (now : ℝ), a.isDead = true ∨ b.isDead = true →
      Ball.checkCollisionWith a b now = (a, b)) ∧
    (∀ b : Ball, b.isDead = true → b.cure = b) ∧
    (∀ g : GameInstance, Reachable g → g.hasStartedInfection = false →
      ∀ b ∈ g.balls, b.isDead = false) ∧
    (∀ (g : GameInstance) (pick : Nat) (now : ℝ), g.hasStartedInfection = true →
      g.startInfection pick now = g) := by
  refine ⟨?_, ?_, ?_, ?_, ?_, ?_⟩
  · exact fun b => ⟨rfl, rfl, rfl⟩
  · exact fun b deltaTime dims ls now flip h => update_dead_eq b deltaTime dims ls now flip h
  · intro a b now h
    unfold Ball.checkCollisionWith
    rw [if_pos (show (a.isDead || b.isDead) = true by
      rcases h with h | h <;> simp [h])]
  · intro b h
    unfold Ball.cure
    rw [if_neg (show ¬ b.isInfected = true by
      rw [isDead_eq_true_iff] at h
      simp [Ball.isInfected, h])]
  · intro g hr hflag b hb
    rw [isDead_eq_false_iff, reachable_pre_infection_green g hr hflag b hb]
    exact fun hc => Color.noConfusion hc
  · intro g pick now h
    unfold GameInstance.startInfection
    rw [if_neg (by simp [h])]

/-- Witness for C4: a concrete Dead entity is fixed by update, collision and
cure; in the concrete freshly-constructed one-ball reachable state no entity
is Dead; and startInfection is a no-op on a concrete state whose infection
flag is already set. -/
theorem Ball.dead_is_terminal_witness :
    deadB.isDead = true ∧
    (deadB.update 1 dimsW [] 0 false = deadB) ∧
    (Ball.checkCollisionWith deadB healthyB 0 = (deadB, healthyB)) ∧
    (deadB.cure = deadB) ∧
    ((initBall dimsW settings1W (seedsW 0)).isDead = false) ∧
    (gC3.startInfection 5 7 = gC3) := by
  refine ⟨rfl, Ball.dead_is_terminal.2.1 deadB 1 dimsW [] 0 false rfl,
    Ball.dead_is_terminal.2.2.1 deadB healthyB 0 (Or.inl rfl),
    Ball.dead_is_terminal.2.2.2.1 deadB rfl, ?_,
    Ball.dead_is_terminal.2.2.2.2.2 gC3 5 7 rfl⟩
  exact Ball.dead_is_terminal.2.2.2.2.1
    (GameInstance.mkInstance dimsW settings1W seedsW)
    (Reachable.init dimsW settings1W seedsW) rfl
    (initBall dimsW settings1W (seedsW 0))
    (by
      show initBall dimsW settings1W (seedsW 0)
        ∈ initializeBalls dimsW settings1W seedsW
      unfold initializeBalls
      rw [show settings1W.ballCount = 1 from rfl]
      exact List.mem_singleton.mpr rfl)

theorem scanStep_skip (p : Point) (acc : Option (ℝ × Point)) (s : Point × Point)
    (h : segLength s < 1) : scanStep p acc s = acc := by
  unfold scanStep
  rw [if_pos h]

theorem scanStep_none (p : Point) (s : Point × Point) (h : ¬ segLength s < 1) :
    scanStep p none s = some (pointDist p (closestPointOnSegment p s.1 s.2),
      closestPointOnSegment p s.1 s.2) := by
  unfold scanStep
  rw [if_neg h]

theorem scanStep_some (p : Point) (md : ℝ × Point) (s : Point × Point)
    (h : ¬ segLength s < 1) :
    scanStep p (some md) s =
      if pointDist p (closestPointOnSegment p s.1 s.2) < md.1 then
        some (pointDist p (closestPointOnSegment p s.1 s.2),
          closestPointOnSegment p s.1 s.2)
      else some md := by
  unfold scanStep
  rw [if_neg h]

theorem foldl_scanStep_some (p : Point) :
    ∀ (segs : List (Point × Point)) (a : ℝ × Point),
      ∃ b : ℝ × Point, segs.foldl (scanStep p) (some a) = some b ∧
        b.1 ≤ a.1 ∧
        (b = a ∨ ∃ s ∈ segs, ¬ segLength s < 1 ∧
          b.2 = closestPointOnSegment p s.1 s.2 ∧ b.1 = pointDist p b.2) ∧
        (∀ s ∈ segs, ¬ segLength s < 1 →
          b.1 ≤ pointDist p (closestPointOnSegment p s.1 s.2)) := by
  intro segs
  induction segs with
  | nil =>
    intro a
    exact ⟨a, rfl, le_refl _, Or.inl rfl, by intro s hs; cases hs⟩
  | cons s rest ih =>
    intro a
    by_cases hlen : segLength s < 1
    · obtain ⟨b, hb, hle, hw, hmin⟩ := ih a
      refine ⟨b, ?_, hle, ?_, ?_⟩
      · rw [List.foldl_cons, scanStep_skip p (some a) s hlen]
        exact hb
      · rcases hw with h | ⟨s', hs', h1, h2, h3⟩
        · exact Or.inl h
        · exact Or.inr ⟨s', List.mem_cons_of_mem s hs', h1, h2, h3⟩
      · intro s' hs' hv
        rcases List.mem_cons.mp hs' with rfl | hs''
        · exact absurd hlen hv
        · exact hmin s' hs'' hv
    · by_cases hlt : pointDist p (closestPointOnSegment p s.1 s.2) < a.1
      · obtain ⟨b, hb, hle, hw, hmin⟩ :=
          ih (pointDist p (closestPointOnSegment p s.1 s.2),
            closestPointOnSegment p s.1 s.2)
        refine ⟨b, ?_, le_trans hle (le_of_lt hlt), ?_, ?_⟩
        · rw [List.foldl_cons, scanStep_some p a s hlen, if_pos hlt]
          exact hb
        · rcases hw with h | ⟨s', hs', h1, h2, h3⟩
          · refine Or.inr ⟨s, List.mem_cons_self s rest, hlen, ?_, ?_⟩
            · rw [h]
            · rw [h]
          · exact Or.inr ⟨s', List.mem_cons_of_mem s hs', h1, h2, h3⟩
        · intro s' hs' hv
          rcases List.mem_cons.mp hs' with rfl | hs''
          · exact hle
          · exact hmin s' hs'' hv
      · obtain ⟨b, hb, hle, hw, hmin⟩ := ih a
        refine ⟨b, ?_, hle, ?_, ?_⟩
        · rw [List.foldl_cons, scanStep_some p a s hlen, if_neg hlt]
          exact hb
        · rcases hw with h | ⟨s', hs', h1, h2, h3⟩
          · exact Or.inl h
          · exact Or.inr ⟨s', List.mem_cons_of_mem s hs', h1, h2, h3⟩
        · intro s' hs' hv
          rcases List.mem_cons.mp hs' with rfl | hs''
          · push_neg at hlt
            exact le_trans hle hlt
          · exact hmin s' hs'' hv

theorem scanSegments_none_iff (p : Point) :
    ∀ segs : List (Point × Point),
      (scanSegments p segs = none ↔ ∀ s ∈ segs, segLength s < 1) := by
  intro segs
  induction segs with
  | nil =>
    constructor
    · intro _ s hs
      cases hs
    · intro _
      rfl
  | cons s rest ih =>
    by_cases hlen : segLength s < 1
    · unfold scanSegments at ih ⊢
      rw [List.foldl_cons, scanStep_skip p none s hlen, ih]
      constructor
      · intro h s' hs'
        rcases List.mem_cons.mp hs' with rfl | hs''
        · exact hlen
        · exact h s' hs''
      · intro h s' hs'
        exact h s' (List.mem_cons_of_mem s hs')
    · obtain ⟨b, hb, _, _, _⟩ := foldl_scanStep_some p rest
        (pointDist p (closestPointOnSegment p s.1 s.2), closestPointOnSegment p s.1 s.2)
      unfold scanSegments
      rw [List.foldl_cons, scanStep_none p s hlen, hb]
      constructor
      · intro h
        cases h
      · intro h
        exact absurd (h s (List.mem_cons_self s rest)) hlen

theorem scanSegments_some (p : Point) :
    ∀ (segs : List (Point × Point)) (m : ℝ) (q : Point),
      scanSegments p segs = some (m, q) →
      ((∃ s ∈ segs, ¬ segLength s < 1 ∧ q = closestPointOnSegment p s.1 s.2 ∧
          m = pointDist p q) ∧
        (∀ s ∈ segs, ¬ segLength s < 1 →
          m ≤ pointDist p (closestPointOnSegment p s.1 s.2))) := by
  intro segs
  induction segs with
  | nil =>
    intro m q h
    cases h
  | cons s rest ih =>
    intro m q h
    by_cases hlen : segLength s < 1
    · unfold scanSegments at h
      rw [List.foldl_cons, scanStep_skip p none s hlen] at h
      obtain ⟨⟨s', hs', hv, h1, h2⟩, hmin⟩ := ih m q h
      refine ⟨⟨s', List.mem_cons_of_mem s hs', hv, h1, h2⟩, ?_⟩
      intro s' hs' hv
      rcases List.mem_cons.mp hs' with rfl | hs''
      · exact absurd hlen hv
      · exact hmin s' hs'' hv
    · unfold scanSegments at h
      rw [List.foldl_cons, scanStep_none p s hlen] at h
      obtain ⟨b, hb, hle, hw, hmin⟩ := foldl_scanStep_some p rest
        (pointDist p (closestPointOnSegment p s.1 s.2), closestPointOnSegment p s.1 s.2)
      rw [hb] at h
      have hbmq : b = (m, q) := Option.some.inj h
      subst hbmq
      refine ⟨?_, ?_⟩
      · rcases hw with hw | ⟨s', hs', hv, h1, h2⟩
        · injection hw with hm hq
          exact ⟨s, List.mem_cons_self s rest, hlen, hq, by rw [hm, hq]⟩
        · exact ⟨s', List.mem_cons_of_mem s hs', hv, h1, h2⟩
      · intro s' hs' hv
        rcases List.mem_cons.mp hs' with rfl | hs''
        · exact hle
        · exact hmin s' hs'' hv

/-- C6 amended: getCollisionInfo reports collides = true exactly when the
minimum distance from the entity center to a valid segment (segments
shorter than 1 unit skipped) is below the entity's current effective
radius getRadius() = radius * scale — not the construction-time radius.
When it collides, the scan's closest point q realizes that minimum, and
outside the epsilon case (distance at least 0.0001) the normal is the unit
vector from q toward the center with corrected position q + normal *
effective radius; in the epsilon-degenerate case the normal defaults to
(1,0) and the corrected position is the entity center shifted by the
effective radius along x (not the closest point shifted). -/
theorem CurvyLine.getCollisionInfo_spec (l : CurvyLine) (ball : Ball) :
    (ball.getRadius = ball.radius * ball.scale) ∧
    ((l.getCollisionInfo ball).collides = true ↔
      ∃ s ∈ segmentsOf l.points, ¬ segLength s < 1 ∧
        pointDist ball.getPosition (closestPointOnSegment ball.getPosition s.1 s.2)
          < ball.getRadius) ∧
    ((l.getCollisionInfo ball).collides = true →
      ∃ q : Point,
        (∃ s ∈ segmentsOf l.points, ¬ segLength s < 1 ∧
          q = closestPointOnSegment ball.getPosition s.1 s.2) ∧
        (∀ s ∈ segmentsOf l.points, ¬ segLength s < 1 →
          pointDist ball.getPosition q
            ≤ pointDist ball.getPosition (closestPointOnSegment ball.getPosition s.1 s.2)) ∧
        pointDist ball.getPosition q < ball.getRadius ∧
        (if pointDist ball.getPosition q < 0.0001 then
          (l.getCollisionInfo ball).normal = ⟨1, 0⟩ ∧
          (l.getCollisionInfo ball).correctedX = ball.getPosition.x + ball.getRadius ∧
          (l.getCollisionInfo ball).correctedY = ball.getPosition.y
        else
          (l.getCollisionInfo ball).normal.x
              = (ball.getPosition.x - q.x) / pointDist ball.getPosition q ∧
          (l.getCollisionInfo ball).normal.y
              = (ball.getPosition.y - q.y) / pointDist ball.getPosition q ∧
          (l.getCollisionInfo ball).correctedX
              = q.x + (l.getCollisionInfo ball).normal.x * ball.getRadius ∧
          (l.getCollisionInfo ball).correctedY
              = q.y + (l.getCollisionInfo ball).normal.y * ball.getRadius)) := by
  refine ⟨rfl, ?_, ?_⟩
  · rcases hscan : scanSegments ball.getPosition (segmentsOf l.points) with _ | md
    · rw [getCollisionInfo_scan_none l ball hscan]
      constructor
      · intro h
        exact absurd h (by simp)
      · rintro ⟨s, hs, hv, _⟩
        exact absurd ((scanSegments_none_iff ball.getPosition (segmentsOf l.points)).mp
          hscan s hs) hv
    · obtain ⟨⟨s0, hs0, hv0, hq0, hm0⟩, hmin⟩ :=
        scanSegments_some ball.getPosition (segmentsOf l.points) md.1 md.2
          (by rw [hscan])
      by_cases hge : md.1 ≥ ball.getRadius
      · rw [getCollisionInfo_scan_far l ball md hscan hge]
        constructor
        · intro h
          exact absurd h (by simp)
        · rintro ⟨s, hs, hv, hlt⟩
          have h1 := hmin s hs hv
          linarith
      · constructor
        · intro _
          refine ⟨s0, hs0, hv0, ?_⟩
          rw [← hq0, ← hm0]
          exact lt_of_not_ge hge
        · intro _
          by_cases hdeg : hypot (ball.getPosition.x - md.2.x)
              (ball.getPosition.y - md.2.y) < 0.0001
          · rw [getCollisionInfo_scan_near_deg l ball md hscan hge hdeg]
          · rw [getCollisionInfo_scan_near l ball md hscan hge hdeg]
  · intro hc
    rcases hscan : scanSegments ball.getPosition (segmentsOf l.points) with _ | md
    · rw [getCollisionInfo_scan_none l ball hscan] at hc
      cases hc
    · obtain ⟨⟨s0, hs0, hv0, hq0, hm0⟩, hmin⟩ :=
        scanSegments_some ball.getPosition (segmentsOf l.points) md.1 md.2
          (by rw [hscan])
      by_cases hge : md.1 ≥ ball.getRadius
      · rw [getCollisionInfo_scan_far l ball md hscan hge] at hc
        cases hc
      · refine ⟨md.2, ⟨s0, hs0, hv0, hq0⟩, ?_, ?_, ?_⟩
        · intro s hs hv
          rw [← hm0]
          exact hmin s hs hv
        · rw [← hm0]
          exact lt_of_not_ge hge
        · by_cases hdeg : hypot (ball.getPosition.x - md.2.x)
              (ball.getPosition.y - md.2.y) < 0.0001
          · rw [if_pos (show pointDist ball.getPosition md.2 < 0.0001 from hdeg)]
            rw [getCollisionInfo_scan_near_deg l ball md hscan hge hdeg]
            exact ⟨rfl, rfl, rfl⟩
          · rw [if_neg (show ¬ pointDist ball.getPosition md.2 < 0.0001 from hdeg)]
            rw [getCollisionInfo_scan_near l ball md hscan hge hdeg]
            exact ⟨rfl, rfl, rfl, rfl⟩

theorem closest6 : closestPointOnSegment ⟨0, 0⟩ ⟨15, 0⟩ ⟨65, 0⟩ = (⟨15, 0⟩ : Point) := by
  unfold closestPointOnSegment
  dsimp only
  rw [hypot_sq]
  rw [if_pos (by norm_num)]

theorem scan_lineC6 : scanSegments ballC6.getPosition (segmentsOf lineC6.points)
    = some (15, ⟨15, 0⟩) := by
  show scanSegments ⟨0, 0⟩ [(⟨15, 0⟩, ⟨65, 0⟩)] = some (15, ⟨15, 0⟩)
  unfold scanSegments
  rw [List.foldl_cons, List.foldl_nil]
  unfold scanStep
  rw [if_neg (by
    rw [show segLength (⟨15, 0⟩, ⟨65, 0⟩) = 50 from
      hypot_eval (by norm_num) (by norm_num)]
    norm_num)]
  dsimp only
  rw [closest6, show pointDist ⟨0, 0⟩ ⟨15, 0⟩ = 15 from
    hypot_eval (by norm_num) (by norm_num)]

theorem collides_lineC6 : (lineC6.getCollisionInfo ballC6).collides = true := by
  rw [getCollisionInfo_scan_near lineC6 ballC6 (15, ⟨15, 0⟩) scan_lineC6
    (by show ¬ (15 : ℝ) ≥ ballC6.getRadius
        show ¬ (15 : ℝ) ≥ 10 * 2
        norm_num)
    (by show ¬ hypot ((0 : ℝ) - 15) ((0 : ℝ) - 0) < 0.0001
        rw [show hypot ((0 : ℝ) - 15) ((0 : ℝ) - 0) = 15 from
          hypot_eval (by norm_num) (by norm_num)]
        norm_num)]

theorem closest6e : closestPointOnSegment ⟨0, 0⟩ ⟨0.00005, 0⟩ ⟨50.00005, 0⟩
    = (⟨0.00005, 0⟩ : Point) := by
  unfold closestPointOnSegment
  dsimp only
  rw [hypot_sq]
  rw [if_pos (by norm_num)]

theorem scan_lineC6e : scanSegments ballC6e.getPosition (segmentsOf lineC6e.points)
    = some (0.00005, ⟨0.00005, 0⟩) := by
  show scanSegments ⟨0, 0⟩ [(⟨0.00005, 0⟩, ⟨50.00005, 0⟩)] = some (0.00005, ⟨0.00005, 0⟩)
  unfold scanSegments
  rw [List.foldl_cons, List.foldl_nil]
  unfold scanStep
  rw [if_neg (by
    rw [show segLength (⟨0.00005, 0⟩, ⟨50.00005, 0⟩) = 50 from
      hypot_eval (by norm_num) (by norm_num)]
    norm_num)]
  dsimp only
  rw [closest6e, show pointDist ⟨0, 0⟩ ⟨0.00005, 0⟩ = 0.00005 from
    hypot_eval (by norm_num) (by norm_num)]

theorem info_lineC6e : lineC6e.getCollisionInfo ballC6e
    = ⟨true, ⟨1, 0⟩, ballC6e.getPosition.x + ballC6e.getRadius,
        ballC6e.getPosition.y⟩ := by
  rw [getCollisionInfo_scan_near_deg lineC6e ballC6e (0.00005, ⟨0.00005, 0⟩)
    scan_lineC6e
    (by show ¬ (0.00005 : ℝ) ≥ ballC6e.getRadius
        show ¬ (0.00005 : ℝ) ≥ 10 * 1
        norm_num)
    (by show hypot ((0 : ℝ) - 0.00005) ((0 : ℝ) - 0) < 0.0001
        rw [show hypot ((0 : ℝ) - 0.00005) ((0 : ℝ) - 0) = 0.00005 from
          hypot_eval (by norm_num) (by norm_num)]
        norm_num)]

/-- Counterexample for C6: the collision predicate does not use the radius
fixed at construction.  For ballC6 (construction radius 10, visual scale 2)
and lineC6, the minimum distance to the single valid segment is 15, which is
not below the construction radius 10, yet getCollisionInfo reports
collides = true (it compares against the effective radius 20).  In addition,
for the epsilon-degenerate geometry of ballC6e and lineC6e the closest point
is (0.00005, 0) and the default normal is (1,0), but the corrected x is 10
(the center shifted by the effective radius), not closest.x + normal.x *
radius = 0.00005 + 10. -/
theorem CurvyLine.getCollisionInfo_cex :
    ballC6.radius = 10 ∧
    segmentsOf lineC6.points = [(⟨15, 0⟩, ⟨65, 0⟩)] ∧
    pointDist ballC6.getPosition
      (closestPointOnSegment ballC6.getPosition ⟨15, 0⟩ ⟨65, 0⟩) = 15 ∧
    ¬ (15 : ℝ) < ballC6.radius ∧
    (lineC6.getCollisionInfo ballC6).collides = true ∧
    (lineC6e.getCollisionInfo ballC6e).collides = true ∧
    (lineC6e.getCollisionInfo ballC6e).normal = ⟨1, 0⟩ ∧
    closestPointOnSegment ballC6e.getPosition ⟨0.00005, 0⟩ ⟨50.00005, 0⟩
      = (⟨0.00005, 0⟩ : Point) ∧
    (lineC6e.getCollisionInfo ballC6e).correctedX = 10 ∧
    (10 : ℝ) ≠ 0.00005 + 1 * ballC6e.getRadius := by
  refine ⟨rfl, rfl, ?_, ?_, collides_lineC6, ?_, ?_, closest6e, ?_, ?_⟩
  · show pointDist ⟨0, 0⟩ (closestPointOnSegment ⟨0, 0⟩ ⟨15, 0⟩ ⟨65, 0⟩) = 15
    rw [closest6]
    exact hypot_eval (by norm_num) (by norm_num)
  · show ¬ (15 : ℝ) < 10
    norm_num
  · rw [info_lineC6e]
  · rw [info_lineC6e]
  · rw [info_lineC6e]
    show (0 : ℝ) + 10 * 1 = 10
    norm_num
  · show (10 : ℝ) ≠ 0.00005 + 1 * (10 * 1)
    norm_num

/-- Witness for C6's amended claim: the concrete scaled entity collides with
the concrete line (minimum distance 15 below effective radius 20), the
effective radius is radius * scale, and in the concrete epsilon-degenerate
case the characterization produces the closest point and branch data. -/
theorem CurvyLine.getCollisionInfo_spec_witness :
    ballC6.getRadius = ballC6.radius * ballC6.scale ∧
    (lineC6.getCollisionInfo ballC6).collides = true ∧
    (∃ q : Point,
      (∃ s ∈ segmentsOf lineC6e.points, ¬ segLength s < 1 ∧
        q = closestPointOnSegment ballC6e.getPosition s.1 s.2) ∧
      (∀ s ∈ segmentsOf lineC6e.points, ¬ segLength s < 1 →
        pointDist ballC6e.getPosition q
          ≤ pointDist ballC6e.getPosition
              (closestPointOnSegment ballC6e.getPosition s.1 s.2)) ∧
      pointDist ballC6e.getPosition q < ballC6e.getRadius ∧
      (if pointDist ballC6e.getPosition q < 0.0001 then
        (lineC6e.getCollisionInfo ballC6e).normal = ⟨1, 0⟩ ∧
        (lineC6e.getCollisionInfo ballC6e).correctedX
          = ballC6e.getPosition.x + ballC6e.getRadius ∧
        (lineC6e.getCollisionInfo ballC6e).correctedY = ballC6e.getPosition.y
      else
        (lineC6e.getCollisionInfo ballC6e).normal.x
            = (ballC6e.getPosition.x - q.x) / pointDist ballC6e.getPosition q ∧
        (lineC6e.getCollisionInfo ballC6e).normal.y
            = (ballC6e.getPosition.y - q.y) / pointDist ballC6e.getPosition q ∧
        (lineC6e.getCollisionInfo ballC6e).correctedX
            = q.x + (lineC6e.getCollisionInfo ballC6e).normal.x * ballC6e.getRadius ∧
        (lineC6e.getCollisionInfo ballC6e).correctedY
            = q.y + (lineC6e.getCollisionInfo ballC6e).normal.y * ballC6e.getRadius)) := by
  refine ⟨(CurvyLine.getCollisionInfo_spec lineC6 ballC6).1, ?_, ?_⟩
  · refine ((CurvyLine.getCollisionInfo_spec lineC6 ballC6).2.1).mpr
      ⟨(⟨15, 0⟩, ⟨65, 0⟩), List.mem_singleton.mpr rfl, ?_, ?_⟩
    · rw [show segLength (⟨15, 0⟩, ⟨65, 0⟩) = 50 from
        hypot_eval (by norm_num) (by norm_num)]
      norm_num
    · show pointDist ⟨0, 0⟩ (closestPointOnSegment ⟨0, 0⟩ ⟨15, 0⟩ ⟨65, 0⟩) < 10 * 2
      rw [closest6, show pointDist ⟨0, 0⟩ ⟨15, 0⟩ = 15 from
        hypot_eval (by norm_num) (by norm_num)]
      norm_num
  · exact (CurvyLine.getCollisionInfo_spec lineC6e ballC6e).2.2
      (by rw [info_lineC6e])

theorem create_speed (cfg : BallConfig) (phase : ℝ)
    (hd : 0 < hypot cfg.vx cfg.vy) (hs : 0 ≤ cfg.speedScale) :
    hypot (Ball.create cfg phase).vx (Ball.create cfg phase).vy
      = (Ball.create cfg phase).baseSpeed :=
  hypot_unit_scale cfg.vx cfg.vy (hypot cfg.vx cfg.vy * cfg.speedScale) hd
    (mul_nonneg (hypot_nonneg _ _) hs)
